import Mathlib

/-!
Verification of the privacy-preserving spreadsheet execution core
(`backend/app/services/spreadsheet.py`).

The Python service is shallowly embedded: worksheet values become an inductive
`CellValue`, Python dicts (which preserve insertion order) become association
lists, `frozenset`s become `Finset`s, and fallible code returns `Except`.
Definitions follow the source line by line; each definition's doc comment
names the Python function it embeds.
-/

set_option linter.unusedVariables false

namespace ROAI


/-! ### ASCII character classes and Python `str.upper`

The service manipulates cell addresses such as `"D10"`; the regexes in the
source use the classes `[A-Z]` and `\d`, and `.upper()` is ASCII uppercasing
on these inputs.  We model the classes by code-point bounds. -/

def isUpperAZ (c : Char) : Bool := 65 ≤ c.toNat && c.toNat ≤ 90

def isDigitChar (c : Char) : Bool := 48 ≤ c.toNat && c.toNat ≤ 57

def isLowerAZ (c : Char) : Bool := 97 ≤ c.toNat && c.toNat ≤ 122

/-- Model of Python `str.upper()` on a single ASCII character. -/
def charUpper (c : Char) : Char :=
  if isLowerAZ c then Char.ofNat (c.toNat - 32) else c

/-- Model of Python `str.upper()` (ASCII inputs). -/
def strUpper (s : String) : String := ⟨s.data.map charUpper⟩

/-! ### Decimal rendering of naturals (Python `str(int)` for our row numbers) -/

def digitChar (n : Nat) : Char :=
  if n = 0 then '0' else if n = 1 then '1' else if n = 2 then '2'
  else if n = 3 then '3' else if n = 4 then '4' else if n = 5 then '5'
  else if n = 6 then '6' else if n = 7 then '7' else if n = 8 then '8' else '9'

def natReprAux : Nat → Nat → List Char
  | 0, _ => []
  | fuel + 1, n =>
    if n < 10 then [digitChar n]
    else natReprAux fuel (n / 10) ++ [digitChar (n % 10)]

/-- Model of Python `str(n)` for a natural number (decimal digits). -/
def natRepr (n : Nat) : String := ⟨natReprAux (n + 1) n⟩

/-- Decimal parse, modelling `int(s)` on a digit string. -/
def parseNatAux (cs : List Char) (acc : Nat) : Nat :=
  cs.foldl (fun a c => a * 10 + (c.toNat - 48)) acc

def parseNat (cs : List Char) : Nat := parseNatAux cs 0

def upperAlpha (n : Nat) : Char := Char.ofNat (65 + n)

/-- `openpyxl.utils.get_column_letter`: 1-based bijective base-26 column
name.  Fuel-based structural recursion (the fuel argument strictly exceeds
the column index) so that the definition evaluates by kernel reduction. -/
def getColLetterAux : Nat → Nat → List Char
  | 0, _ => []
  | fuel + 1, n =>
    match n with
    | 0 => []
    | m + 1 => getColLetterAux fuel (m / 26) ++ [upperAlpha (m % 26)]

def get_column_letter (n : Nat) : String := ⟨getColLetterAux (n + 1) n⟩

/-- `openpyxl.utils.column_index_from_string` on an upper-case letter string. -/
def colIndexAux (cs : List Char) (acc : Nat) : Nat :=
  cs.foldl (fun a c => a * 26 + (c.toNat - 64)) acc

def column_index_from_string (s : String) : Nat := colIndexAux s.data 0

/-! ### Cell address strings and their parse (the regex `^([A-Z]+)(\d+)$`) -/

/-- The cell address `f"{get_column_letter(col_idx)}{row_idx}"` used throughout
the source. -/
def cellAddr (col_idx row : Nat) : String := get_column_letter col_idx ++ natRepr row

/-- Model of `re.match(r'^([A-Z]+)(\d+)$', s)`: the whole string must be an
upper-case letter run followed by a digit run; returns the two groups. -/
def parseCellAddr (s : String) : Option (String × Nat) :=
  if (s.data.takeWhile isUpperAZ).isEmpty
      || (s.data.drop (s.data.takeWhile isUpperAZ).length).isEmpty
      || !((s.data.drop (s.data.takeWhile isUpperAZ).length).all isDigitChar) then
    none
  else
    some (⟨s.data.takeWhile isUpperAZ⟩,
      parseNat (s.data.drop (s.data.takeWhile isUpperAZ).length))

/-! ### Visibility model

`CompiledVisibility` embeds the frozen dataclass of the same name
(spreadsheet.py:55-64): three `frozenset`s become three `Finset`s, whose
equality is extensional set equality, exactly like `frozenset` equality. -/

structure CompiledVisibility where
  hidden_cells : Finset String
  hidden_cols : Finset String
  hidden_rows : Finset Nat
deriving DecidableEq

def CompiledVisibility.empty : CompiledVisibility := ⟨∅, ∅, ∅⟩

/-- One per-sheet visibility declaration object: the three optional JSON
fields `hiddenRows` / `hiddenColumns` / `hiddenCells` (a field is `none` when
the key is absent from the dict, as in `sheet_vis.get('hiddenCells', [])`). -/
structure SheetDecl where
  hiddenRows : Option (List Nat) := none
  hiddenColumns : Option (List String) := none
  hiddenCells : Option (List String) := none
deriving DecidableEq

/-- `'hiddenRows' in d or 'hiddenColumns' in d or 'hiddenCells' in d`. -/
def SheetDecl.declared (d : SheetDecl) : Bool :=
  d.hiddenRows.isSome || d.hiddenColumns.isSome || d.hiddenCells.isSome

/-- The per-file visibility object.  A Python dict whose keys are either the
three reserved field names (holding lists, per the `SheetVisibility` schema in
routes/chat.py) or sheet names (holding nested dicts); the two kinds are kept
apart here, preserving insertion order of the sheet-named entries. -/
structure FileVis where
  sheetEntries : List (String × SheetDecl)
  top : SheetDecl
deriving DecidableEq

/-- The whole visibility declaration: dict from file id / filename to
per-file objects. -/
abbrev Visibility := List (String × FileVis)

/-- `_get_visibility_for_file` (spreadsheet.py:408-421): try the `file_id`
key, then the `filename` key; empty or absent declaration gives `None`.
Python truthiness of the string keys (`if file_id and ...`) is modelled by
the `≠ ""` tests. -/
def _get_visibility_for_file (file_id : String) (filename : Option String)
    (visibility : Option Visibility) : Option FileVis :=
  match visibility with
  | none => none
  | some vis =>
    if vis = [] then none
    else if file_id ≠ "" ∧ (vis.lookup file_id).isSome then vis.lookup file_id
    else
      match filename with
      | some fn => if fn ≠ "" ∧ (vis.lookup fn).isSome then vis.lookup fn else none
      | none => none

/-- `_get_sheet_visibility` (spreadsheet.py:424-440): sheet-scoped entry wins
when it exists and contains one of the three fields; otherwise the file-level
object is used flat when it contains one of the three fields. -/
def _get_sheet_visibility (file_id : String) (filename : Option String)
    (sheet_name : Option String) (visibility : Option Visibility) : Option SheetDecl :=
  match _get_visibility_for_file file_id filename visibility with
  | none => none
  | some file_vis =>
    let fromSheet : Option SheetDecl :=
      match sheet_name with
      | some sn =>
        if sn ≠ "" then
          match file_vis.sheetEntries.lookup sn with
          | some sheet_vis => if sheet_vis.declared then some sheet_vis else none
          | none => none
        else none
      | none => none
    match fromSheet with
    | some sheet_vis => some sheet_vis
    | none => if file_vis.top.declared then some file_vis.top else none

/-- `get_compiled_visibility` (spreadsheet.py:278-316) without its content-hash
cache (the cache is keyed by a hash of the resolved `sheet_vis`, so it is
semantically transparent): upper-case the cell and column entries and build
the three sets. -/
def get_compiled_visibility (file_id : String) (filename : Option String)
    (sheet_name : Option String) (visibility : Option Visibility) : CompiledVisibility :=
  match _get_sheet_visibility file_id filename sheet_name visibility with
  | none => CompiledVisibility.empty
  | some sheet_vis =>
    { hidden_cells := ((sheet_vis.hiddenCells.getD []).map strUpper).toFinset
      hidden_cols := ((sheet_vis.hiddenColumns.getD []).map strUpper).toFinset
      hidden_rows := (sheet_vis.hiddenRows.getD []).toFinset }

/-- `is_cell_hidden_fast` (spreadsheet.py:319-342): upper-case the address,
check the explicit cell set, then parse and check the column and row sets. -/
def is_cell_hidden_fast (cell_addr : String) (compiled : CompiledVisibility) : Bool :=
  if strUpper cell_addr ∈ compiled.hidden_cells then true
  else
    match parseCellAddr (strUpper cell_addr) with
    | none => false
    | some (col, row) =>
      if col ∈ compiled.hidden_cols then true
      else if row ∈ compiled.hidden_rows then true
      else false

/-- `is_row_hidden_fast` (spreadsheet.py:345-347). -/
def is_row_hidden_fast (row : Nat) (compiled : CompiledVisibility) : Bool :=
  row ∈ compiled.hidden_rows

/-- `is_col_hidden_fast` (spreadsheet.py:350-352). -/
def is_col_hidden_fast (col : String) (compiled : CompiledVisibility) : Bool :=
  strUpper col ∈ compiled.hidden_cols

/-- Python `range(a, b + 1)` as a list. -/
def rangeIncl (a b : Nat) : List Nat := List.range' a (b + 1 - a)

/-- `get_visible_range_indices` (spreadsheet.py:355-376). -/
def get_visible_range_indices (row_start row_end col_start_idx col_end_idx : Nat)
    (compiled : CompiledVisibility) : List Nat × List Nat :=
  ((rangeIncl row_start row_end).filter (fun r => decide (r ∉ compiled.hidden_rows)),
   (rangeIncl col_start_idx col_end_idx).filter
     (fun c => decide (get_column_letter c ∉ compiled.hidden_cols)))

/-- The compiled visibility of the testable-property example:
`hiddenColumns=["B"], hiddenRows=[5], hiddenCells=["D10"]` declared flat for
file `"f1"`. -/
def exampleCompiled : CompiledVisibility :=
  get_compiled_visibility "f1" none (some "Sheet1")
    (some [("f1", ⟨[], ⟨some [5], some ["B"], some ["D10"]⟩⟩)])

/-! ### Python list / string primitives used by the execution engine -/

/-- Characters of Python `repr` of a list of strings, element part. -/
def pyStrListReprAux : List String → String
  | [] => ""
  | [x] => "\x27" ++ x ++ "\x27"
  | x :: y :: t => "\x27" ++ x ++ "\x27, " ++ pyStrListReprAux (y :: t)

/-- Python `str(list_of_strings)`, e.g. `['Sheet1', 'Sheet2']`. -/
def pyStrListRepr (xs : List String) : String := "[" ++ pyStrListReprAux xs ++ "]"

/-- Stable insertion used to model Python `sorted`. -/
def insertLe {α : Type} (le : α → α → Bool) (x : α) : List α → List α
  | [] => [x]
  | y :: t => if le y x then y :: insertLe le x t else x :: y :: t

/-- Model of Python `sorted(l)` under the Bool order `le` (stable). -/
def pySorted {α : Type} (le : α → α → Bool) (l : List α) : List α :=
  l.foldl (fun acc x => insertLe le x acc) []

/-- Lexicographic comparison on code points (Python string `<=`). -/
def charListLe : List Char → List Char → Bool
  | [], _ => true
  | _ :: _, [] => false
  | a :: s, b :: t =>
    if a.toNat < b.toNat then true
    else if b.toNat < a.toNat then false
    else charListLe s t

def pyStrLe (a b : String) : Bool := charListLe a.data b.data

def natLe (a b : Nat) : Bool := a ≤ b

def isPrefixChars : List Char → List Char → Bool
  | [], _ => true
  | _ :: _, [] => false
  | a :: p, b :: l => a = b && isPrefixChars p l

def isInfixChars (p : List Char) : List Char → Bool
  | [] => isPrefixChars p []
  | b :: l => isPrefixChars p (b :: l) || isInfixChars p l

/-- Python `pat in s` (substring containment). -/
def strContains (s pat : String) : Bool := isInfixChars pat.data s.data

/-- Python `s.split(sep)` for a one-character separator. -/
def splitOnCharAux (sep : Char) : List Char → List (List Char)
  | [] => [[]]
  | c :: t =>
    let r := splitOnCharAux sep t
    if c = sep then [] :: r
    else (c :: r.headD []) :: r.tail

def pySplitLines (s : String) : List String :=
  (splitOnCharAux '\n' s.data).map (fun cs => ⟨cs⟩)

def strJoinNl (lines : List String) : String := String.intercalate "\n" lines

/-- Python `s.strip()` (ASCII whitespace). -/
def pyStrip (s : String) : String :=
  ⟨((s.data.dropWhile Char.isWhitespace).reverse.dropWhile Char.isWhitespace).reverse⟩

/-- Python `s.rstrip()`. -/
def pyRstrip (s : String) : String :=
  ⟨(s.data.reverse.dropWhile Char.isWhitespace).reverse⟩

/-! ### Worksheet values and the session registry

`CellValue` models the value of an openpyxl cell in the `data_only=True`
view: a number (`int`/`float`), a string, or `None`. -/

inductive CellValue
  | num (q : Int)
  | str (s : String)
  | empty
deriving DecidableEq

/-- One worksheet of the real workbook: `ws.cell(row=r, column=c).value`,
both indices 1-based. -/
structure Worksheet where
  cellVal : Nat → Nat → CellValue

/-- An openpyxl workbook: named sheets in order (`wb.sheetnames`). -/
structure Workbook where
  sheets : List (String × Worksheet)

def Workbook.sheetnames (wb : Workbook) : List String := wb.sheets.map Prod.fst

/-- A pandas DataFrame as parsed at upload: named columns in order, each a
list of values (one per data row). -/
structure DataFrame where
  columns : List (String × List CellValue)

/-- `SheetStructure` (spreadsheet.py:42-52).  The dicts preserve insertion
order, so they are association lists here. -/
structure SheetStructure where
  name : String
  rows : Nat
  cols : Nat
  headers : List (String × String)
  row_labels : List (String × String)
  text_values : List (String × String)
  formulas : List (String × String)
  cell_types : List (String × String)
deriving DecidableEq

/-- The stored raw bytes of a file, together with what
`openpyxl.load_workbook` does with them: xlsx payloads parse to a workbook;
csv/tsv text is not a zip archive, so `load_workbook` raises
`zipfile.BadZipFile("File is not a zip file")`. -/
inductive RawBytes
  | xlsx (wb : Workbook)
  | csvText (text : String)

/-- One entry of `spreadsheet_context["files"]`. -/
structure FileData where
  filename : String
  sheets : List (String × DataFrame)

/-- The module-global `spreadsheet_context` dict (spreadsheet.py:71-76). -/
structure SpreadsheetContext where
  files : List (String × FileData)
  structures : List (String × List (String × SheetStructure))
  raw_bytes : List (String × RawBytes)
  current_visibility : Option Visibility

/-- `get_raw_bytes` + `get_cached_workbook` (spreadsheet.py:157-197).  The
TTL cache memoizes `openpyxl.load_workbook` over unchanged bytes and the
zlib round-trip is lossless, so both are semantically transparent; `.error`
is `load_workbook` raising on non-xlsx bytes (caught by the caller's
`try`). -/
def get_cached_workbook (ctx : SpreadsheetContext) (file_id : String) :
    Except String (Option Workbook) :=
  match ctx.raw_bytes.lookup file_id with
  | none => .ok none
  | some (.xlsx wb) => .ok (some wb)
  | some (.csvText _) => .error "File is not a zip file"

/-- `get_filename_for_file_id` (spreadsheet.py:393-397). -/
def get_filename_for_file_id (ctx : SpreadsheetContext) (file_id : String) :
    Option String :=
  (ctx.files.lookup file_id).map FileData.filename

/-! ### Range reference parsing (the regex `^([A-Z]+)(\d+):([A-Z]+)(\d+)$`) -/

/-- Split at the first `':'`.  In the range regex the classes `[A-Z]` and
`\d` never match `':'`, so the separating colon is necessarily the first
one, and a second colon makes the cell-address parse of the right part
fail. -/
def splitAtColon : List Char → Option (List Char × List Char)
  | [] => none
  | c :: t =>
    if c = ':' then some ([], t)
    else
      match splitAtColon t with
      | some (l, r) => some (c :: l, r)
      | none => none

def parseRangeRef (s : String) : Option (String × Nat × String × Nat) :=
  match splitAtColon s.data with
  | none => none
  | some (l, r) =>
    match parseCellAddr ⟨l⟩, parseCellAddr ⟨r⟩ with
    | some (c1, r1), some (c2, r2) => some (c1, r1, c2, r2)
    | _, _ => none

/-! ### Visibility-aware accessors (spreadsheet.py:777-867) -/

/-- `_get_cell_value_with_visibility` (spreadsheet.py:777-790): invalid
reference raises `ValueError`; a hidden cell yields the string sentinel
`"[HIDDEN]"`; otherwise the real value. -/
def _get_cell_value_with_visibility (ws : Worksheet) (cell_ref : String)
    (compiled : CompiledVisibility) : Except String CellValue :=
  match parseCellAddr (strUpper cell_ref) with
  | none => .error ("Invalid cell reference: " ++ cell_ref)
  | some (col, row) =>
    if is_cell_hidden_fast cell_ref compiled then .ok (.str "[HIDDEN]")
    else .ok (ws.cellVal row (column_index_from_string col))

/-- `_get_range_values_with_visibility` (spreadsheet.py:793-830): numeric
values of the range, iterating the pre-computed visible rows (outer) and
visible columns (inner) and skipping explicitly hidden cells. -/
def _get_range_values_with_visibility (ws : Worksheet) (range_ref : String)
    (compiled : CompiledVisibility) : Except String (List Int) :=
  match parseRangeRef (strUpper range_ref) with
  | none => .error ("Invalid range reference: " ++ range_ref)
  | some (col_start, row_start, col_end, row_end) =>
    .ok (((get_visible_range_indices row_start row_end
        (column_index_from_string col_start) (column_index_from_string col_end)
        compiled).1).flatMap (fun row =>
      ((get_visible_range_indices row_start row_end
        (column_index_from_string col_start) (column_index_from_string col_end)
        compiled).2).filterMap (fun col_idx =>
        if cellAddr col_idx row ∈ compiled.hidden_cells then none
        else
          match ws.cellVal row col_idx with
          | .num q => some q
          | _ => none)))

/-- `_get_range_all_values_with_visibility` (spreadsheet.py:833-867): all
values (including `None`) of the visible part of the range. -/
def _get_range_all_values_with_visibility (ws : Worksheet) (range_ref : String)
    (compiled : CompiledVisibility) : Except String (List CellValue) :=
  match parseRangeRef (strUpper range_ref) with
  | none => .error ("Invalid range reference: " ++ range_ref)
  | some (col_start, row_start, col_end, row_end) =>
    .ok (((get_visible_range_indices row_start row_end
        (column_index_from_string col_start) (column_index_from_string col_end)
        compiled).1).flatMap (fun row =>
      ((get_visible_range_indices row_start row_end
        (column_index_from_string col_start) (column_index_from_string col_end)
        compiled).2).filterMap (fun col_idx =>
        if cellAddr col_idx row ∈ compiled.hidden_cells then none
        else some (ws.cellVal row col_idx))))

/-- Legacy `_get_range_values` (spreadsheet.py:879-897): numeric values of
the whole range, no visibility filtering. -/
def _get_range_values (ws : Worksheet) (range_ref : String) :
    Except String (List Int) :=
  match parseRangeRef (strUpper range_ref) with
  | none => .error ("Invalid range reference: " ++ range_ref)
  | some (col_start, row_start, col_end, row_end) =>
    .ok ((rangeIncl row_start row_end).flatMap (fun row =>
      (rangeIncl (column_index_from_string col_start)
          (column_index_from_string col_end)).filterMap (fun col_idx =>
        match ws.cellVal row col_idx with
        | .num q => some q
        | _ => none)))

/-! ### Formula execution (spreadsheet.py:924-1018) -/

/-- Python `sum`. -/
def pySum (l : List Int) : Int := l.foldl (· + ·) 0

/-- Python `max` on a nonempty list (0 as the unused default). -/
def pyMax : List Int → Int
  | [] => 0
  | x :: xs => xs.foldl (fun a b => if b > a then b else a) x

/-- Python `min` on a nonempty list. -/
def pyMin : List Int → Int
  | [] => 0
  | x :: xs => xs.foldl (fun a b => if b < a then b else a) x

/-- Greedy match of `[A-Z]+\d+` at the front of `cs`: returns the matched
characters and the remainder. -/
def readCellRaw (cs : List Char) : Option (List Char × List Char) :=
  if (cs.takeWhile isUpperAZ).isEmpty
      || ((cs.drop (cs.takeWhile isUpperAZ).length).takeWhile isDigitChar).isEmpty then
    none
  else
    some (cs.takeWhile isUpperAZ ++
        (cs.drop (cs.takeWhile isUpperAZ).length).takeWhile isDigitChar,
      (cs.drop (cs.takeWhile isUpperAZ).length).drop
        ((cs.drop (cs.takeWhile isUpperAZ).length).takeWhile isDigitChar).length)

/-- Model of `re.match(name + r'\(([A-Z]+\d+:[A-Z]+\d+)\)', formula,
re.IGNORECASE)`: the pattern is anchored at the start only, so trailing
characters after `)` are ignored.  Returns the range group.  (`re.match`
yields the group in original case; the callers immediately `.upper()` it,
so the upper-cased group is returned here directly.) -/
def parseAggApp (fname : String) (formula : String) : Option String :=
  if ((strUpper formula).data.take (fname.data.length + 1) =
      fname.data ++ ['(']) then
    match readCellRaw ((strUpper formula).data.drop (fname.data.length + 1)) with
    | some (m1, rest1) =>
      match rest1 with
      | ':' :: rest2 =>
        match readCellRaw rest2 with
        | some (m2, rest3) =>
          match rest3 with
          | ')' :: _ => some ⟨m1 ++ ':' :: m2⟩
          | _ => none
        | none => none
      | _ => none
    | none => none
  else none

/-- `formula.strip()` then removal of a leading `=` (spreadsheet.py:955-957). -/
def stripEq (formula : String) : String :=
  if (pyStrip formula).data.head? = some '=' then ⟨(pyStrip formula).data.tail⟩
  else pyStrip formula

inductive FormulaResult
  | val (v : CellValue)
  | ratVal (q : ℚ)
  | err (msg : String)
deriving DecidableEq

/-- The body of `execute_formula` after the sheet is resolved
(spreadsheet.py:959-1015): try SUM, AVERAGE, COUNT, MAX, MIN on a range,
then a bare single-cell reference; a still-`None` result means
"Unsupported formula".  `Except.error` models an exception reaching the
enclosing `try`. -/
def evalFormulaBody (ws : Worksheet) (compiled : CompiledVisibility) (f : String) :
    Except String FormulaResult :=
  match parseAggApp "SUM" f with
  | some rng => do
    let values ← _get_range_values_with_visibility ws rng compiled
    pure (.val (.num (if values.isEmpty then 0 else pySum values)))
  | none =>
  match parseAggApp "AVERAGE" f with
  | some rng => do
    let values ← _get_range_values_with_visibility ws rng compiled
    pure (if values.isEmpty then .val (.num 0)
      else .ratVal ((pySum values : ℚ) / values.length))
  | none =>
  match parseAggApp "COUNT" f with
  | some rng => do
    let values ← _get_range_values_with_visibility ws rng compiled
    pure (.val (.num values.length))
  | none =>
  match parseAggApp "MAX" f with
  | some rng => do
    let values ← _get_range_values_with_visibility ws rng compiled
    pure (.val (.num (if values.isEmpty then 0 else pyMax values)))
  | none =>
  match parseAggApp "MIN" f with
  | some rng => do
    let values ← _get_range_values_with_visibility ws rng compiled
    pure (.val (.num (if values.isEmpty then 0 else pyMin values)))
  | none =>
  if (parseCellAddr (strUpper f)).isSome then
    match _get_cell_value_with_visibility ws f compiled with
    | .error e => .error e
    | .ok .empty => .ok (.err ("Unsupported formula: " ++ f))
    | .ok v => .ok (.val v)
  else .ok (.err ("Unsupported formula: " ++ f))

/-- The ambiguity error text of spreadsheet.py:945. -/
def ambiguousSheetMsg (names : List String) : String :=
  "Multiple sheets available: " ++ pyStrListRepr names ++ ". Please specify sheet_name."

/-- The missing-sheet error text of spreadsheet.py:948. -/
def sheetNotFoundMsg (sn : String) (names : List String) : String :=
  "Sheet \x27" ++ sn ++ "\x27 not found. Available: " ++ pyStrListRepr names

/-- `execute_formula` (spreadsheet.py:924-1018).  Reads the ambient
`current_visibility` from the context; any exception inside the `try` is
converted to an error result. -/
def execute_formula (ctx : SpreadsheetContext) (formula : String) (file_id : String)
    (sheet_name : Option String) : FormulaResult :=
  if (ctx.raw_bytes.lookup file_id).isNone then .err "File not found"
  else
    match get_cached_workbook ctx file_id with
    | .error e => .err e
    | .ok none => .err "Could not load workbook"
    | .ok (some wb) =>
      match (if sheet_name = none ∨ sheet_name = some "" then
               if wb.sheetnames.length = 1 then Except.ok (wb.sheetnames.headD "")
               else Except.error (ambiguousSheetMsg wb.sheetnames)
             else Except.ok (sheet_name.getD "") : Except String String) with
      | .error e => .err e
      | .ok sn =>
        if (wb.sheets.lookup sn).isNone then .err (sheetNotFoundMsg sn wb.sheetnames)
        else
          match evalFormulaBody ((wb.sheets.lookup sn).getD ⟨fun _ _ => .empty⟩)
              (get_compiled_visibility file_id (get_filename_for_file_id ctx file_id)
                (some sn) ctx.current_visibility)
              (stripEq formula) with
          | .ok r => r
          | .error e => .err e

/-! ### Character and string facts used to evaluate constructed formulas -/

/-- The characters that can occur in a constructed formula string. -/
def formulaChar (c : Char) : Bool :=
  isUpperAZ c || isDigitChar c || c = '(' || c = ')' || c = ':'

/-- The claim-side characterization of range aggregation: the numeric values
of exactly those cells of the range whose row is not hidden, whose column is
not hidden, and whose address is not explicitly hidden, in row-major order. -/
def specVisibleValues (ws : Worksheet) (compiled : CompiledVisibility)
    (row_start row_end col_start col_end : Nat) : List Int :=
  (rangeIncl row_start row_end).flatMap fun row =>
    (rangeIncl col_start col_end).filterMap fun col_idx =>
      if row ∉ compiled.hidden_rows ∧
          get_column_letter col_idx ∉ compiled.hidden_cols ∧
          cellAddr col_idx row ∉ compiled.hidden_cells then
        match ws.cellVal row col_idx with
        | .num q => some q
        | _ => none
      else none

/-- The sheet of the testable SUM example: A1=10, A2=20, A3=30. -/
def exampleWs : Worksheet :=
  ⟨fun r c =>
    if c = 1 then
      if r = 1 then .num 10 else if r = 2 then .num 20
      else if r = 3 then .num 30 else .empty
    else .empty⟩

/-- Context holding that sheet as `demo.xlsx`, with `A2` explicitly hidden
via the ambient visibility. -/
def exampleCtx : SpreadsheetContext :=
  ⟨[("f1", ⟨"demo.xlsx", []⟩)], [], [("f1", .xlsx ⟨[("Sheet1", exampleWs)]⟩)],
   some [("f1", ⟨[], ⟨none, none, some ["A2"]⟩⟩)]⟩

/-- A two-sheet workbook and a context holding it. -/
def exampleWb6 : Workbook := ⟨[("S1", exampleWs), ("S2", exampleWs)]⟩

def exampleCtx6 : SpreadsheetContext :=
  ⟨[("f6", ⟨"two.xlsx", []⟩)], [], [("f6", .xlsx exampleWb6)], none⟩

/-! ### Degenerate ranges -/

/-- A sheet with numeric column A (5, 7), and B1 = 0. -/
def exampleWs9 : Worksheet :=
  ⟨fun r c =>
    if c = 1 then (if r = 1 then .num 5 else if r = 2 then .num 7 else .empty)
    else if c = 2 then (if r = 1 then .num 0 else .empty)
    else .empty⟩

/-- Context for that sheet with column `A` hidden. -/
def exampleCtx9 : SpreadsheetContext :=
  ⟨[("f9", ⟨"nine.xlsx", []⟩)], [], [("f9", .xlsx ⟨[("S", exampleWs9)]⟩)],
   some [("f9", ⟨[], ⟨none, some ["A"], none⟩⟩)]⟩

/-! ### Structure extraction (spreadsheet.py:520-639)

`extract_structure_from_excel` walks the workbook in two views: the raw
view (`data_only=False`, formula cells hold their `"=..."` text) and the
computed view (`data_only=True`).  `XlsxSheet` carries both. -/

structure XlsxSheet where
  maxRow : Nat
  maxCol : Nat
  raw : Nat → Nat → CellValue
  val : Nat → Nat → CellValue

/-- `cell.value and isinstance(cell.value, str) and cell.value.startswith("=")`:
the formula text of a raw cell, when it is one. -/
def isFormulaRaw : CellValue → Option String
  | .str s => if s.startsWith "=" then some s else none
  | _ => none

/-- One cell's contribution to the header score: a non-empty string not
starting with the warning / magnifier markers. -/
def isHeaderTextCell : CellValue → Bool
  | .str s => ¬ s.startsWith "⚠" && ¬ s.startsWith "🔍" && s ≠ ""
  | _ => false

def headerScore (sh : XlsxSheet) (row : Nat) : Nat :=
  ((rangeIncl 1 sh.maxCol).filter (fun c => isHeaderTextCell (sh.val row c))).length

/-- The header-detection scan (spreadsheet.py:541-555): rows 1..min(maxRow,14),
keeping the first row attaining the strictly-largest score of at least 3. -/
def findHeaderRowAux (sh : XlsxSheet) : Nat × Option Nat :=
  (rangeIncl 1 (min sh.maxRow 14)).foldl
    (fun acc row =>
      if 3 ≤ headerScore sh row ∧ acc.1 < headerScore sh row
      then (headerScore sh row, some row) else acc)
    (0, none)

def header_row (sh : XlsxSheet) : Option Nat := (findHeaderRowAux sh).2

/-- The cells of the extraction loop in iteration (= dict insertion) order:
rows outer, columns inner, both 1-based. -/
def rowMajorCells (maxRow maxCol : Nat) : List (Nat × Nat) :=
  (rangeIncl 1 maxRow).flatMap (fun r => (rangeIncl 1 maxCol).map (fun c => (r, c)))

/-- The `cell_types` classification chain of spreadsheet.py:565-573. -/
def classifyCell (sh : XlsxSheet) (r c : Nat) : String :=
  if (isFormulaRaw (sh.raw r c)).isSome then "formula"
  else
    match sh.val r c with
    | .empty => "empty"
    | .str s => if s = "" then "empty" else "text"
    | .num _ => "numeric"

def isMarkerText (s : String) : Bool :=
  s.startsWith "⚠" || s.startsWith "🔍" || s.startsWith "•"

/-- The per-sheet extraction loop of `extract_structure_from_excel`
(spreadsheet.py:557-592). -/
def extract_sheet (name : String) (sh : XlsxSheet) : SheetStructure :=
  { name := name
    rows := sh.maxRow
    cols := sh.maxCol
    headers := (rowMajorCells sh.maxRow sh.maxCol).filterMap (fun rc =>
      match header_row sh with
      | some h =>
        if rc.1 = h then
          match sh.val rc.1 rc.2 with
          | .str s => some (cellAddr rc.2 rc.1, s)
          | _ => none
        else none
      | none => none)
    row_labels := (rowMajorCells sh.maxRow sh.maxCol).filterMap (fun rc =>
      match header_row sh with
      | some h =>
        if rc.2 = 1 ∧ h < rc.1 then
          match sh.val rc.1 rc.2 with
          | .str s => if ¬ isMarkerText s then some (cellAddr rc.2 rc.1, s) else none
          | _ => none
        else none
      | none => none)
    text_values := (rowMajorCells sh.maxRow sh.maxCol).filterMap (fun rc =>
      if (isFormulaRaw (sh.raw rc.1 rc.2)).isSome then none
      else
        match sh.val rc.1 rc.2 with
        | .str s => if s = "" then none else some (cellAddr rc.2 rc.1, ⟨s.data.take 100⟩)
        | _ => none)
    formulas := (rowMajorCells sh.maxRow sh.maxCol).filterMap (fun rc =>
      match isFormulaRaw (sh.raw rc.1 rc.2) with
      | some f => some (cellAddr rc.2 rc.1, f)
      | none => none)
    cell_types := (rowMajorCells sh.maxRow sh.maxCol).map (fun rc =>
      (cellAddr rc.2 rc.1, classifyCell sh rc.1 rc.2)) }

/-- `extract_structure_from_excel` over the parsed workbook (the enclosing
`try` never fires in the pure model; on success the Python function returns
exactly this per-sheet map). -/
def extract_structure_from_excel (wbFile : List (String × XlsxSheet)) :
    List (String × SheetStructure) :=
  wbFile.map (fun e => (e.1, extract_sheet e.1 e.2))

def enumerate {α : Type} (l : List α) : List (Nat × α) := (List.range l.length).zip l

/-- pandas `len(df)`: the shared length of the columns. -/
def DataFrame.nrows (df : DataFrame) : Nat := ((df.columns.headD ("", [])).2).length

/-- `pd.isna` / `isinstance(value, (int, float))` classification of a CSV
cell (spreadsheet.py:620-628).  Numeric pandas values are modelled as
`CellValue.num`. -/
def classifyCsvCell : CellValue → String
  | .empty => "empty"
  | .num _ => "numeric"
  | .str _ => "text"

/-- `extract_structure_from_csv` (spreadsheet.py:603-639): row 1 is the
header row unconditionally; the dicts are built column-major (columns
outer, data rows inner), matching the Python loop's insertion order. -/
def extract_structure_from_csv (df : DataFrame) (sheet_name : String) : SheetStructure :=
  { name := sheet_name
    rows := df.nrows + 1
    cols := df.columns.length
    headers := (enumerate df.columns).map (fun e =>
      (get_column_letter (e.1 + 1) ++ "1", e.2.1))
    row_labels := (enumerate df.columns).flatMap (fun e =>
      if e.1 = 0 then
        (enumerate e.2.2).filterMap (fun rv =>
          match rv.2 with
          | .str s => some (get_column_letter (e.1 + 1) ++ natRepr (rv.1 + 2),
              ⟨s.data.take 50⟩)
          | _ => none)
      else [])
    text_values := (enumerate df.columns).flatMap (fun e =>
      (get_column_letter (e.1 + 1) ++ "1", e.2.1) ::
        (enumerate e.2.2).filterMap (fun rv =>
          match rv.2 with
          | .str s => some (get_column_letter (e.1 + 1) ++ natRepr (rv.1 + 2),
              ⟨s.data.take 100⟩)
          | _ => none))
    formulas := []
    cell_types := (enumerate df.columns).flatMap (fun e =>
      (get_column_letter (e.1 + 1) ++ "1", "text") ::
        (enumerate e.2.2).map (fun rv =>
          (get_column_letter (e.1 + 1) ++ natRepr (rv.1 + 2), classifyCsvCell rv.2))) }

/-! ### LLM context building (spreadsheet.py:468-493 and 682-770) -/

def strLeB (a b : String) : Bool := pyStrLe a b

def natLeB (a b : Nat) : Bool := decide (a ≤ b)

/-- `get_visibility_summary` (spreadsheet.py:468-493). -/
def get_visibility_summary (file_id : String) (filename : Option String)
    (sheet_name : Option String) (visibility : Option Visibility) : String :=
  match _get_sheet_visibility file_id filename sheet_name visibility with
  | none => ""
  | some sv =>
    let cols := sv.hiddenColumns.getD []
    let rows := sv.hiddenRows.getD []
    let cells := sv.hiddenCells.getD []
    let parts : List String :=
      (if cols.isEmpty then [] else
        ["Columns " ++ String.intercalate ", " (pySorted strLeB cols)])
      ++ (if rows.isEmpty then [] else
        if 10 < (pySorted natLeB rows).length then
          ["Rows " ++ natRepr ((pySorted natLeB rows).headD 0) ++ "-" ++
            natRepr ((pySorted natLeB rows).getLastD 0) ++ " (" ++
            natRepr (pySorted natLeB rows).length ++ " rows)"]
        else ["Rows " ++ String.intercalate ", " ((pySorted natLeB rows).map natRepr)])
      ++ (if cells.isEmpty then [] else
        ["Cells " ++ String.intercalate ", " (pySorted strLeB cells)])
    if parts.isEmpty then ""
    else "[HIDDEN FROM AI: " ++ String.intercalate "; " parts ++ "]"

/-- `x[0].rstrip('0123456789')` of the header-sorting key. -/
def rstripDigits (s : String) : String :=
  ⟨(s.data.reverse.dropWhile isDigitChar).reverse⟩

def headerSortKey (addr : String) : Nat := column_index_from_string (rstripDigits addr)

/-- `re.search(r'\d+', s).group()` parsed as an integer: the first digit run. -/
def firstDigitRunNat (s : String) : Nat :=
  parseNat ((s.data.dropWhile (fun c => ¬ isDigitChar c)).takeWhile isDigitChar)

def incrCount : List (String × Nat) → String → List (String × Nat)
  | [], t => [(t, 1)]
  | (k, v) :: rest, t => if k = t then (k, v + 1) :: rest else (k, v) :: incrCount rest t

/-- The insertion-ordered histogram of `cell_types.values()`. -/
def typeCounts (vals : List String) : List (String × Nat) := vals.foldl incrCount []

/-- `json.dumps(type_counts)` for the string→int histogram. -/
def jsonCounts (counts : List (String × Nat)) : String :=
  "\x7b" ++
    String.intercalate ", " (counts.map (fun kv => "\"" ++ kv.1 ++ "\": " ++ natRepr kv.2))
    ++ "\x7d"

/-- The per-sheet lines of `build_llm_context` (spreadsheet.py:701-766). -/
def sheetContextParts (file_id filename sheet_name : String)
    (st : SheetStructure) (visibility : Option Visibility) : List String :=
  let compiled_vis := get_compiled_visibility file_id (some filename) (some sheet_name)
    visibility
  ["\n### Sheet: " ++ sheet_name,
   "Size: " ++ natRepr st.rows ++ " rows × " ++ natRepr st.cols ++ " columns"]
  ++ (if get_visibility_summary file_id (some filename) (some sheet_name) visibility = ""
      then []
      else [get_visibility_summary file_id (some filename) (some sheet_name) visibility])
  ++ [""]
  ++ (if st.headers.isEmpty then [] else
      if (st.headers.filter
            (fun kv => ¬ is_cell_hidden_fast kv.1 compiled_vis)).isEmpty then []
      else
        "**Column Headers:**" ::
        (pySorted (fun a b => natLeB (headerSortKey a.1) (headerSortKey b.1))
            (st.headers.filter
              (fun kv => ¬ is_cell_hidden_fast kv.1 compiled_vis))).map
          (fun kv => "  " ++ kv.1 ++ ": " ++ kv.2))
  ++ (if st.row_labels.isEmpty then [] else
      if (st.row_labels.filter
            (fun kv => ¬ is_cell_hidden_fast kv.1 compiled_vis)).isEmpty then []
      else
        "\n**Row Labels (column A):**" ::
        ((st.row_labels.filter
            (fun kv => ¬ is_cell_hidden_fast kv.1 compiled_vis)).take 25).map
          (fun kv => "  " ++ kv.1 ++ ": " ++ kv.2)
        ++ (if 25 < (st.row_labels.filter
              (fun kv => ¬ is_cell_hidden_fast kv.1 compiled_vis)).length then
            ["  ... and " ++ natRepr ((st.row_labels.filter
              (fun kv => ¬ is_cell_hidden_fast kv.1 compiled_vis)).length - 25)
              ++ " more rows"]
          else []))
  ++ (if st.headers.isEmpty then [] else
      ["\n**Data Range:** Row " ++
        natRepr (firstDigitRunNat (st.headers.headD ("", "")).1 + 1) ++
        " to ~Row " ++ natRepr st.rows])
  ++ (if st.formulas.isEmpty then [] else
      if (st.formulas.filter
            (fun kv => ¬ is_cell_hidden_fast kv.1 compiled_vis)).isEmpty then []
      else
        "\n**Existing Formulas:**" ::
        ((st.formulas.filter
            (fun kv => ¬ is_cell_hidden_fast kv.1 compiled_vis)).take 15).map
          (fun kv => "  " ++ kv.1 ++ ": " ++ kv.2)
        ++ (if 15 < (st.formulas.filter
              (fun kv => ¬ is_cell_hidden_fast kv.1 compiled_vis)).length then
            ["  ... and " ++ natRepr ((st.formulas.filter
              (fun kv => ¬ is_cell_hidden_fast kv.1 compiled_vis)).length - 15)
              ++ " more formulas"]
          else []))
  ++ ["\n**Cell Types:** " ++ jsonCounts (typeCounts (st.cell_types.map Prod.snd))]

/-- `build_llm_context` (spreadsheet.py:682-770): sets the ambient
`current_visibility` as a side effect, then renders every loaded file's
structures; returns the context text together with the updated context
state. -/
def build_llm_context (ctx : SpreadsheetContext) (visibility : Option Visibility) :
    String × SpreadsheetContext :=
  let ctx2 : SpreadsheetContext := { ctx with current_visibility := visibility }
  if ctx.structures.isEmpty then ("", ctx2)
  else
    (String.intercalate "\n"
      (["# SPREADSHEET STRUCTURE (numeric values hidden)\n",
        "Reference cells directly by address (e.g., C5, D4:D9). I will execute formulas and return results.\n"]
       ++ ctx.files.flatMap (fun fe =>
          ("## File: " ++ fe.2.filename) ::
          (((ctx.structures.lookup fe.1).getD []).flatMap (fun se =>
            sheetContextParts fe.1 fe.2.filename se.1 se.2 visibility))
          ++ [""])),
     ctx2)

/-! ### The end-to-end CSV scenario -/

/-- The claimed 2-column, 3-row CSV: header `Revenue,Month`, Revenue values
100, 200, 300. -/
def csvDf : DataFrame :=
  ⟨[("Revenue", [.num 100, .num 200, .num 300]),
    ("Month", [.str "Jan", .str "Feb", .str "Mar"])]⟩

def csvVisibility : Visibility := [("f5", ⟨[], ⟨some [3], none, none⟩⟩)]

/-- The context state after uploading the CSV: parsed DataFrames, extracted
structure, and the raw CSV bytes (which `openpyxl` cannot parse). -/
def csvCtx : SpreadsheetContext :=
  ⟨[("f5", ⟨"sales.csv", [("Sheet1", csvDf)]⟩)],
   [("f5", [("Sheet1", extract_structure_from_csv csvDf "Sheet1")])],
   [("f5", .csvText "Revenue,Month\n100,Jan\n200,Feb\n300,Mar")],
   none⟩

/-- The state after `build_llm_context` has installed the declaration. -/
def csvCtxAfter : SpreadsheetContext := (build_llm_context csvCtx (some csvVisibility)).2

/-- Two raw sheets that agree on shape, formula status and every
non-numeric value, differing at most in the magnitudes of numeric cells. -/
def numEquiv (sh1 sh2 : XlsxSheet) : Prop :=
  sh1.maxRow = sh2.maxRow ∧ sh1.maxCol = sh2.maxCol ∧
  (∀ r c, isFormulaRaw (sh1.raw r c) = isFormulaRaw (sh2.raw r c)) ∧
  (∀ r c, sh1.val r c = sh2.val r c ∨
    ∃ q1 q2 : Int, sh1.val r c = .num q1 ∧ sh2.val r c = .num q2)

/-- Pointwise `numEquiv` between two parsed workbook sheet maps. -/
def wbNumEquiv (wb1 wb2 : List (String × XlsxSheet)) : Prop :=
  List.Forall₂ (fun e1 e2 => e1.1 = e2.1 ∧ numEquiv e1.2 e2.2) wb1 wb2

/-- A 2×2 sheet: header row `Name`/`Amount`, one label and one plain
numeric cell at B2. -/
def wVal1 : Nat → Nat → CellValue := fun r c =>
  if r = 1 ∧ c = 1 then .str "Name"
  else if r = 1 ∧ c = 2 then .str "Amount"
  else if r = 2 ∧ c = 1 then .str "alpha"
  else if r = 2 ∧ c = 2 then .num 42
  else .empty

/-- The same sheet with the numeric magnitude at B2 changed. -/
def wVal2 : Nat → Nat → CellValue := fun r c =>
  if r = 2 ∧ c = 2 then .num 999 else wVal1 r c

def wSheetA : XlsxSheet := ⟨2, 2, wVal1, wVal1⟩

def wSheetB : XlsxSheet := ⟨2, 2, wVal2, wVal2⟩

/-! ### Python query execution (spreadsheet.py:1025-1127) -/

/-- The result of `execute_python_query`: a converted Python value, a plain
status string, or the structured error dict `\x7b"error": message\x7d`. -/
inductive QueryResult (α : Type) where
  | val (a : α)
  | msg (s : String)
  | err (m : String)

/-- The successful outcome of the dispatch body: an evaluated value or the
fixed success message. -/
inductive QueryOut (α : Type) where
  | val (a : α)
  | msg (s : String)

/-- An abstract interpreter for `eval` / `exec` over the prepared
`exec_globals` (pandas, `sheets`, `ws`, and the three visibility-aware
helper closures): `evalExpr` models `eval(expr, g)` returning a converted
result value or the message of a raised exception; `execStmts` models
`exec(stmts, g)` mutating the globals or raising. -/
structure PyInterp (σ α : Type) where
  init : σ
  evalExpr : σ → String → Except String α
  execStmts : σ → String → Except String σ

/-- Python `str.count(sub)` over the scanned characters: non-overlapping
occurrences, scanned left to right (fuel = remaining length). -/
def countSubAux (needle : List Char) : Nat → List Char → Nat
  | 0, _ => 0
  | _ + 1, [] => 0
  | fuel + 1, c :: rest =>
    if needle.isPrefixOf (c :: rest) then
      1 + countSubAux needle fuel ((c :: rest).drop needle.length)
    else countSubAux needle fuel rest

def countSub (needle : String) (hay : List Char) : Nat :=
  countSubAux needle.data hay.length hay

/-- The per-line comment handling of `execute_python_query`
(spreadsheet.py:1075-1089): find the first `#`, count unescaped quotes of
both kinds in the prefix, and when both parities are even treat `#` as a
comment and right-strip the prefix; otherwise keep the line unchanged. -/
def stripCommentLine (line : String) : String :=
  match line.data.findIdx? (fun ch => ch = '#') with
  | none => line
  | some i =>
    let pre := line.data.take i
    let sq := countSub "\x27" pre - countSub "\\\x27" pre
    let dq := countSub "\"" pre - countSub "\\\"" pre
    if sq % 2 = 0 ∧ dq % 2 = 0 then pyRstrip ⟨pre⟩ else line

/-- The comment-removal loop (spreadsheet.py:1075-1092): strip comments per
line, keep lines that are nonempty after `strip`, and re-join. -/
def stripComments (code : String) : String :=
  strJoinNl (((pySplitLines code).map stripCommentLine).filter
    (fun l => pyStrip l ≠ ""))

/-- `['=', 'print(', 'for ', 'if ', 'while ']` of spreadsheet.py:1097. -/
def pyKeywords : List String := ["=", "print(", "for ", "if ", "while "]

/-- `['==', '!=', '<=', '>=']` of spreadsheet.py:1103. -/
def pyCompareOps : List String := ["==", "!=", "<=", ">="]

/-- The dispatch body of `execute_python_query` (spreadsheet.py:1071-1112):
comment removal, then single-expression `eval`, whole-block `exec` for a
trailing assignment or print, or statements-then-final-expression.  A
`.error` is an exception raised by the evaluated code (the empty-code early
return produces the same error dict as the `except` path, so it is folded
into the same constructor). -/
def pythonQueryBody {σ α : Type} (I : PyInterp σ α) (code : String) :
    Except String (QueryOut α) :=
  let clean_code := stripComments (pyStrip code)
  if clean_code = "" then .error "Empty code after removing comments"
  else if ¬ strContains clean_code "\n" ∧
      ¬ pyKeywords.any (fun kw => strContains clean_code kw) then
    match I.evalExpr I.init clean_code with
    | .ok a => .ok (.val a)
    | .error m => .error m
  else
    let lines := pySplitLines clean_code
    let last_line := pyStrip (lines.getLastD "")
    if (strContains last_line "=" ∧
        ¬ pyCompareOps.any (fun op => strContains last_line op)) ∨
       last_line.startsWith "print(" then
      match I.execStmts I.init clean_code with
      | .ok _ => .ok (.msg "Code executed successfully")
      | .error m => .error m
    else if 1 < lines.length then
      match I.execStmts I.init (strJoinNl lines.dropLast) with
      | .error m => .error m
      | .ok st2 =>
        match I.evalExpr st2 last_line with
        | .ok a => .ok (.val a)
        | .error m => .error m
    else
      match I.evalExpr I.init last_line with
      | .ok a => .ok (.val a)
      | .error m => .error m

/-- `execute_python_query` (spreadsheet.py:1025-1127) over an abstract
eval/exec interpreter: the missing-file early return, the workbook lookup
inside the `try`, the dispatch body, and the enclosing
`except Exception as e: return \x7b"error": str(e)\x7d`. -/
def execute_python_query {σ α : Type} (I : PyInterp σ α) (ctx : SpreadsheetContext)
    (code : String) (file_id : String) : QueryResult α :=
  match ctx.files.lookup file_id with
  | none => .err "File not found"
  | some _ =>
    match get_cached_workbook ctx file_id with
    | .error e => .err e
    | .ok _ =>
      match pythonQueryBody I code with
      | .ok (.val a) => .val a
      | .ok (.msg s) => .msg s
      | .error m => .err m

/-- An interpreter whose `eval` raises ZeroDivisionError on `1/0`. -/
def divZeroInterp : PyInterp Unit Int :=
  ⟨(), fun _ e => if e = "1/0" then .error "division by zero" else .ok 0,
   fun st _ => .ok st⟩

def exampleCtx7 : SpreadsheetContext :=
  ⟨[("f7", ⟨"book.xlsx", []⟩)], [],
   [("f7", .xlsx ⟨[("S", ⟨fun _ _ => .empty⟩)]⟩)], none⟩

def ctx10 : SpreadsheetContext := ⟨[], [], [], none⟩

def vis10 : Visibility := [("g", ⟨[], ⟨some [2], none, none⟩⟩)]

def ws10 : Worksheet := ⟨fun _ _ => .num 7⟩

theorem charUpper_eq_self_of_not_lower (c : Char) (h : isLowerAZ c = false) :
    charUpper c = c := by
  unfold charUpper
  simp [h]

theorem isLowerAZ_eq_false_of_upper (c : Char) (h : isUpperAZ c = true) :
    isLowerAZ c = false := by
  unfold isUpperAZ at h
  unfold isLowerAZ
  simp only [Bool.and_eq_true, decide_eq_true_eq] at h
  simp only [Bool.and_eq_false_iff, decide_eq_false_iff_not]
  omega

theorem isLowerAZ_eq_false_of_digit (c : Char) (h : isDigitChar c = true) :
    isLowerAZ c = false := by
  unfold isDigitChar at h
  unfold isLowerAZ
  simp only [Bool.and_eq_true, decide_eq_true_eq] at h
  simp only [Bool.and_eq_false_iff, decide_eq_false_iff_not]
  omega

theorem list_map_id_of_eq {l : List Char} (f : Char → Char) (h : ∀ c ∈ l, f c = c) :
    l.map f = l := by
  induction l with
  | nil => rfl
  | cons a t ih => simp_all

theorem strUpper_eq_self (s : String)
    (h : ∀ c ∈ s.data, isUpperAZ c = true ∨ isDigitChar c = true) :
    strUpper s = s := by
  unfold strUpper
  have hmap : s.data.map charUpper = s.data := by
    apply list_map_id_of_eq
    intro c hc
    rcases h c hc with h1 | h1
    · exact charUpper_eq_self_of_not_lower c (isLowerAZ_eq_false_of_upper c h1)
    · exact charUpper_eq_self_of_not_lower c (isLowerAZ_eq_false_of_digit c h1)
  rw [hmap]

theorem digitChar_isDigit (n : Nat) : isDigitChar (digitChar n) = true := by
  unfold digitChar
  split_ifs <;> decide

theorem digitChar_not_upper (n : Nat) : isUpperAZ (digitChar n) = false := by
  unfold digitChar
  split_ifs <;> decide

theorem digitChar_toNat (n : Nat) (h : n < 10) : (digitChar n).toNat = 48 + n := by
  unfold digitChar
  split_ifs with h0 h1 h2 h3 h4 h5 h6 h7 h8
  · subst h0; decide
  · subst h1; decide
  · subst h2; decide
  · subst h3; decide
  · subst h4; decide
  · subst h5; decide
  · subst h6; decide
  · subst h7; decide
  · subst h8; decide
  · have h9 : n = 9 := by omega
    subst h9; decide

theorem natReprAux_ne_nil (fuel n : Nat) (h : n < fuel) : natReprAux fuel n ≠ [] := by
  cases fuel with
  | zero => omega
  | succ f =>
    unfold natReprAux
    split
    · simp
    · simp

theorem natReprAux_digits (fuel n : Nat) :
    ∀ c ∈ natReprAux fuel n, isDigitChar c = true := by
  induction fuel generalizing n with
  | zero => intro c hc; simp [natReprAux] at hc
  | succ f ih =>
    intro c hc
    unfold natReprAux at hc
    split at hc
    · simp at hc; subst hc; exact digitChar_isDigit n
    · simp at hc
      rcases hc with h1 | h1
      · exact ih (n / 10) c h1
      · subst h1; exact digitChar_isDigit (n % 10)

theorem parseNatAux_append (l1 l2 : List Char) (acc : Nat) :
    parseNatAux (l1 ++ l2) acc = parseNatAux l2 (parseNatAux l1 acc) := by
  unfold parseNatAux
  rw [List.foldl_append]

theorem parseNatAux_natReprAux (fuel n acc : Nat) (h : n < fuel) :
    parseNatAux (natReprAux fuel n) acc =
      acc * 10 ^ (natReprAux fuel n).length + n := by
  induction fuel generalizing n acc with
  | zero => omega
  | succ f ih =>
    unfold natReprAux
    split
    · next hlt =>
      unfold parseNatAux
      simp only [List.foldl_cons, List.foldl_nil, List.length_cons, List.length_nil]
      rw [digitChar_toNat n hlt]
      simp [pow_succ]
    · next hge =>
      push_neg at hge
      have hdiv : n / 10 < f := by
        have h1 : n / 10 < n := Nat.div_lt_self (by omega) (by omega)
        omega
      rw [parseNatAux_append]
      have hrec := ih (n / 10) acc hdiv
      rw [hrec]
      unfold parseNatAux
      simp only [List.foldl_cons, List.foldl_nil, List.length_append, List.length_cons,
        List.length_nil, Nat.zero_add, Nat.add_zero]
      rw [digitChar_toNat (n % 10) (Nat.mod_lt n (by omega))]
      rw [pow_succ]
      have hmul : acc * ((10 : ℕ) ^ (natReprAux f (n / 10)).length * 10) =
          acc * (10 : ℕ) ^ (natReprAux f (n / 10)).length * 10 := by ring
      rw [hmul]
      generalize acc * (10 : ℕ) ^ (natReprAux f (n / 10)).length = k
      omega

theorem parseNat_natRepr (n : Nat) : parseNat (natRepr n).data = n := by
  unfold parseNat natRepr
  have := parseNatAux_natReprAux (n + 1) n 0 (by omega)
  simpa using this

theorem natRepr_digits (n : Nat) : ∀ c ∈ (natRepr n).data, isDigitChar c = true := by
  unfold natRepr
  exact natReprAux_digits (n + 1) n

theorem natRepr_ne_nil (n : Nat) : (natRepr n).data ≠ [] := by
  unfold natRepr
  exact natReprAux_ne_nil (n + 1) n (by omega)

/-! ### Column letters (`openpyxl.utils.get_column_letter` / `column_index_from_string`) -/

theorem char_toNat_ofNat (n : Nat) (h : n < 128) : (Char.ofNat n).toNat = n := by
  unfold Char.ofNat
  rw [dif_pos]
  · rfl
  · left; omega

theorem upperAlpha_toNat (n : Nat) (h : n < 26) : (upperAlpha n).toNat = 65 + n := by
  unfold upperAlpha
  exact char_toNat_ofNat (65 + n) (by omega)

theorem upperAlpha_isUpper (n : Nat) (h : n < 26) : isUpperAZ (upperAlpha n) = true := by
  unfold isUpperAZ
  rw [upperAlpha_toNat n h]
  simp
  omega

theorem upperAlpha_not_digit (n : Nat) (h : n < 26) : isDigitChar (upperAlpha n) = false := by
  unfold isDigitChar
  rw [upperAlpha_toNat n h]
  simp
  omega

theorem strEqOfData {s t : String} (h : s.data = t.data) : s = t := by
  cases s; cases t; exact congrArg String.mk h

theorem strMk_data (s : String) : (⟨s.data⟩ : String) = s := by cases s; rfl

theorem getColLetterAux_fuel_inv (f1 : Nat) : ∀ f2 n : Nat, n < f1 → n < f2 →
    getColLetterAux f1 n = getColLetterAux f2 n := by
  induction f1 with
  | zero => intro f2 n h1 h2; omega
  | succ f ih =>
    intro f2 n h1 h2
    match f2, n with
    | g + 1, 0 => rfl
    | g + 1, m + 1 =>
      show getColLetterAux f (m / 26) ++ [upperAlpha (m % 26)] =
        getColLetterAux g (m / 26) ++ [upperAlpha (m % 26)]
      rw [ih g (m / 26) (by
          have := Nat.div_le_self m 26
          omega)
        (by
          have := Nat.div_le_self m 26
          omega)]

theorem colIndexAux_append (l1 l2 : List Char) (acc : Nat) :
    colIndexAux (l1 ++ l2) acc = colIndexAux l2 (colIndexAux l1 acc) := by
  unfold colIndexAux
  rw [List.foldl_append]

theorem get_column_letter_unfold (m : Nat) :
    get_column_letter (m + 1) = get_column_letter (m / 26) ++ ⟨[upperAlpha (m % 26)]⟩ := by
  apply strEqOfData
  rw [String.data_append]
  show getColLetterAux (m + 1) (m / 26) ++ [upperAlpha (m % 26)] =
    getColLetterAux (m / 26 + 1) (m / 26) ++ ([upperAlpha (m % 26)] : List Char)
  rw [getColLetterAux_fuel_inv (m + 1) (m / 26 + 1) (m / 26)
    (by have := Nat.div_le_self m 26; omega) (by omega)]

theorem get_column_letter_all_upper (n : Nat) :
    ∀ c ∈ (get_column_letter n).data, isUpperAZ c = true := by
  induction n using Nat.strong_induction_on with
  | _ n ih =>
    match n with
    | 0 => intro c hc; simp [get_column_letter, getColLetterAux] at hc
    | m + 1 =>
      intro c hc
      rw [get_column_letter_unfold m] at hc
      rw [String.data_append] at hc
      simp only [List.mem_append] at hc
      rcases hc with h1 | h1
      · exact ih (m / 26) (Nat.lt_succ_of_le (Nat.div_le_self m 26)) c h1
      · simp only [List.mem_singleton] at h1
        subst h1
        exact upperAlpha_isUpper (m % 26) (Nat.mod_lt m (by omega))

theorem get_column_letter_ne_nil (n : Nat) (h : 0 < n) :
    (get_column_letter n).data ≠ [] := by
  match n with
  | m + 1 =>
    rw [get_column_letter_unfold m]
    rw [String.data_append]
    simp

theorem colIndexAux_get_column_letter (n : Nat) : ∀ acc : Nat,
    colIndexAux (get_column_letter n).data acc =
      acc * 26 ^ (get_column_letter n).data.length + n := by
  induction n using Nat.strong_induction_on with
  | _ n ih =>
    match n with
    | 0 =>
      intro acc
      simp [get_column_letter, getColLetterAux, colIndexAux]
    | m + 1 =>
      intro acc
      rw [get_column_letter_unfold m]
      rw [String.data_append]
      rw [colIndexAux_append]
      rw [ih (m / 26) (Nat.lt_succ_of_le (Nat.div_le_self m 26)) acc]
      unfold colIndexAux
      simp only [List.foldl_cons, List.foldl_nil, List.length_append, List.length_cons,
        List.length_nil, Nat.zero_add, Nat.add_zero]
      rw [upperAlpha_toNat (m % 26) (Nat.mod_lt m (by omega))]
      rw [pow_succ]
      have hmul : acc * ((26 : ℕ) ^ (get_column_letter (m / 26)).data.length * 26) =
          acc * (26 : ℕ) ^ (get_column_letter (m / 26)).data.length * 26 := by ring
      rw [hmul]
      generalize acc * (26 : ℕ) ^ (get_column_letter (m / 26)).data.length = k
      have hm : m % 26 + 26 * (m / 26) = m := Nat.mod_add_div m 26
      omega

theorem column_index_get_column_letter (n : Nat) :
    column_index_from_string (get_column_letter n) = n := by
  unfold column_index_from_string
  have := colIndexAux_get_column_letter n 0
  simpa using this

theorem takeWhile_append_all {p : Char → Bool} {l1 l2 : List Char}
    (h : ∀ c ∈ l1, p c = true) :
    (l1 ++ l2).takeWhile p = l1 ++ l2.takeWhile p := by
  induction l1 with
  | nil => simp
  | cons a t ih =>
    have hmem : a ∈ a :: t := List.mem_cons_self a t
    have hta : ∀ c ∈ t, p c = true := fun c hc => h c (List.mem_cons_of_mem a hc)
    rw [List.cons_append, List.takeWhile_cons, if_pos (h a hmem), ih hta,
      List.cons_append]

theorem takeWhile_eq_nil_of_all_neg {p : Char → Bool} {l : List Char}
    (h : ∀ c ∈ l, p c = false) : l.takeWhile p = [] := by
  cases l with
  | nil => rfl
  | cons a t =>
    have ha : p a = false := h a (by simp)
    simp only [List.takeWhile_cons, ha]
    simp

/-- Parsing a well-formed address recovers its letter and row parts. -/
theorem parseCellAddr_of_wf (col : String) (row : Nat)
    (hne : col.data ≠ []) (hup : ∀ c ∈ col.data, isUpperAZ c = true) :
    parseCellAddr (col ++ natRepr row) = some (col, row) := by
  unfold parseCellAddr
  rw [String.data_append]
  have htw : (col.data ++ (natRepr row).data).takeWhile isUpperAZ = col.data := by
    rw [takeWhile_append_all hup]
    rw [takeWhile_eq_nil_of_all_neg]
    · simp
    · intro c hc
      have hd := natRepr_digits row c hc
      unfold isDigitChar at hd
      unfold isUpperAZ
      simp only [Bool.and_eq_true, decide_eq_true_eq] at hd
      simp only [Bool.and_eq_false_iff, decide_eq_false_iff_not]
      omega
  rw [htw]
  rw [List.drop_left]
  have hrest_ne : ((natRepr row).data).isEmpty = false := by
    rw [List.isEmpty_eq_false]
    exact natRepr_ne_nil row
  have hcol_ne : (col.data).isEmpty = false := by
    rw [List.isEmpty_eq_false]
    exact hne
  have hall : (natRepr row).data.all isDigitChar = true := by
    rw [List.all_eq_true]
    exact natRepr_digits row
  rw [hcol_ne, hrest_ne, hall]
  simp [parseNat_natRepr]

theorem parseCellAddr_cellAddr (col_idx row : Nat) (h : 0 < col_idx) :
    parseCellAddr (cellAddr col_idx row) = some (get_column_letter col_idx, row) := by
  unfold cellAddr
  exact parseCellAddr_of_wf _ row (get_column_letter_ne_nil col_idx h)
    (get_column_letter_all_upper col_idx)

theorem strUpper_cellAddr_like (col : String) (row : Nat)
    (hup : ∀ c ∈ col.data, isUpperAZ c = true) :
    strUpper (col ++ natRepr row) = col ++ natRepr row := by
  apply strUpper_eq_self
  intro c hc
  rw [String.data_append] at hc
  simp only [List.mem_append] at hc
  rcases hc with h1 | h1
  · exact Or.inl (hup c h1)
  · exact Or.inr (natRepr_digits row c h1)

/-- C3: for a well-formed cell address `col ++ row`, `is_cell_hidden_fast`
returns true exactly when the explicit address is in `hidden_cells`, OR the
column letters are in `hidden_cols`, OR the row number is in `hidden_rows` —
three independent OR-ed conditions. -/
theorem visibility_or_composition (col : String) (row : Nat)
    (compiled : CompiledVisibility)
    (hne : col.data ≠ []) (hup : ∀ c ∈ col.data, isUpperAZ c = true) :
    is_cell_hidden_fast (col ++ natRepr row) compiled =
      (decide ((col ++ natRepr row) ∈ compiled.hidden_cells) ||
       decide (col ∈ compiled.hidden_cols) ||
       decide (row ∈ compiled.hidden_rows)) := by
  unfold is_cell_hidden_fast
  rw [strUpper_cellAddr_like col row hup]
  rw [parseCellAddr_of_wf col row hne hup]
  by_cases h1 : (col ++ natRepr row) ∈ compiled.hidden_cells
  · simp [h1]
  · by_cases h2 : col ∈ compiled.hidden_cols
    · simp [h1, h2]
    · by_cases h3 : row ∈ compiled.hidden_rows
      · simp [h1, h2, h3]
      · simp [h1, h2, h3]

theorem visibility_or_composition_witness :
    is_cell_hidden_fast ("B" ++ natRepr 1) exampleCompiled =
      (decide (("B" ++ natRepr 1) ∈ exampleCompiled.hidden_cells) ||
       decide (("B" : String) ∈ exampleCompiled.hidden_cols) ||
       decide ((1 : Nat) ∈ exampleCompiled.hidden_rows)) ∧
    is_cell_hidden_fast "B1" exampleCompiled = true ∧
    is_cell_hidden_fast "A5" exampleCompiled = true ∧
    is_cell_hidden_fast "D10" exampleCompiled = true ∧
    is_cell_hidden_fast "C3" exampleCompiled = false := by
  refine ⟨?_, by decide, by decide, by decide, by decide⟩
  exact visibility_or_composition "B" 1 exampleCompiled (by decide) (by decide)

/-- C4: a flat declaration `H` stored directly under the file key and a
sheet-scoped declaration storing `H` under the sheet name compile to identical
`CompiledVisibility` values for that sheet. -/
theorem format_normalization_equiv (key S : String) (fname : Option String)
    (H : SheetDecl) (hkey : key ≠ "") (hS : S ≠ "") :
    get_compiled_visibility key fname (some S) (some [(key, ⟨[], H⟩)]) =
      get_compiled_visibility key fname (some S)
        (some [(key, ⟨[(S, H)], ⟨none, none, none⟩⟩)]) := by
  unfold get_compiled_visibility _get_sheet_visibility _get_visibility_for_file
  simp only [List.lookup, beq_self_eq_true, Option.isSome_some, and_true, hkey, hS,
    ne_eq, not_false_iff, if_true, if_false, List.cons_ne_nil, ite_false, ite_true,
    SheetDecl.declared, Bool.or_eq_true]
  by_cases hd :
      (H.hiddenRows.isSome = true ∨ H.hiddenColumns.isSome = true) ∨
        H.hiddenCells.isSome = true
  · simp only [if_pos hd]
  · simp only [if_neg hd]
    rfl

theorem format_normalization_equiv_witness :
    ("f1" : String) ≠ "" ∧ ("Sheet1" : String) ≠ "" ∧
    get_compiled_visibility "f1" none (some "Sheet1")
        (some [("f1", ⟨[], ⟨none, some ["A"], none⟩⟩)]) =
      get_compiled_visibility "f1" none (some "Sheet1")
        (some [("f1", ⟨[("Sheet1", ⟨none, some ["A"], none⟩)], ⟨none, none, none⟩⟩)]) :=
  ⟨by decide, by decide,
    format_normalization_equiv "f1" "Sheet1" none ⟨none, some ["A"], none⟩
      (by decide) (by decide)⟩

theorem isWhitespace_eq_false_of_toNat (c : Char) (h : 33 ≤ c.toNat) :
    c.isWhitespace = false := by
  unfold Char.isWhitespace
  have h1 : c ≠ ' ' := fun he => by rw [he] at h; exact absurd h (by decide)
  have h2 : c ≠ '\t' := fun he => by rw [he] at h; exact absurd h (by decide)
  have h3 : c ≠ '\r' := fun he => by rw [he] at h; exact absurd h (by decide)
  have h4 : c ≠ '\n' := fun he => by rw [he] at h; exact absurd h (by decide)
  simp [h1, h2, h3, h4]

theorem formulaChar_toNat (c : Char) (h : formulaChar c = true) :
    33 ≤ c.toNat ∧ c.toNat ≤ 90 ∧ c.toNat ≠ 61 := by
  unfold formulaChar at h
  simp only [Bool.or_eq_true, decide_eq_true_eq] at h
  rcases h with ((((h | h) | h) | h) | h)
  · unfold isUpperAZ at h
    simp only [Bool.and_eq_true, decide_eq_true_eq] at h
    omega
  · unfold isDigitChar at h
    simp only [Bool.and_eq_true, decide_eq_true_eq] at h
    omega
  · subst h; decide
  · subst h; decide
  · subst h; decide

theorem formulaChar_not_lower (c : Char) (h : formulaChar c = true) :
    isLowerAZ c = false := by
  have := formulaChar_toNat c h
  unfold isLowerAZ
  simp only [Bool.and_eq_false_iff, decide_eq_false_iff_not]
  omega

theorem formulaChar_not_ws (c : Char) (h : formulaChar c = true) :
    c.isWhitespace = false :=
  isWhitespace_eq_false_of_toNat c (formulaChar_toNat c h).1

theorem formulaChar_ne_eqsign (c : Char) (h : formulaChar c = true) : c ≠ '=' := by
  intro he
  have := (formulaChar_toNat c h).2.2
  rw [he] at this
  exact this (by decide)

theorem strUpper_eq_self_of_no_lower (s : String)
    (h : ∀ c ∈ s.data, isLowerAZ c = false) : strUpper s = s := by
  unfold strUpper
  have hmap : s.data.map charUpper = s.data := by
    apply list_map_id_of_eq
    intro c hc
    exact charUpper_eq_self_of_not_lower c (h c hc)
  rw [hmap]

theorem dropWhile_eq_self_of_all {p : Char → Bool} {l : List Char}
    (h : ∀ c ∈ l, p c = false) : l.dropWhile p = l := by
  cases l with
  | nil => rfl
  | cons a t =>
    have ha : p a = false := h a (by simp)
    simp [List.dropWhile_cons, ha]

theorem pyStrip_eq_self (s : String) (h : ∀ c ∈ s.data, c.isWhitespace = false) :
    pyStrip s = s := by
  unfold pyStrip
  rw [dropWhile_eq_self_of_all h]
  rw [dropWhile_eq_self_of_all (fun c hc => h c (by simpa using hc))]
  rw [List.reverse_reverse]

theorem stripEq_eq_self (s : String) (hws : ∀ c ∈ s.data, c.isWhitespace = false)
    (hhead : ∀ c, s.data.head? = some c → c ≠ '=') : stripEq s = s := by
  unfold stripEq
  rw [pyStrip_eq_self s hws]
  have hne : ¬ (s.data.head? = some '=') := by
    intro hcon
    exact hhead '=' hcon rfl
  rw [if_neg hne]

/-- Membership-based well-formedness of the pieces of a constructed formula. -/
theorem formulaChar_of_parts (name colS colE : String) (r1 r2 : Nat)
    (hnu : ∀ c ∈ name.data, isUpperAZ c = true)
    (hcsu : ∀ c ∈ colS.data, isUpperAZ c = true)
    (hceu : ∀ c ∈ colE.data, isUpperAZ c = true) :
    ∀ c ∈ (name ++ "(" ++ (colS ++ natRepr r1 ++ ":" ++ colE ++ natRepr r2) ++ ")").data,
      formulaChar c = true := by
  intro c hc
  simp only [String.data_append] at hc
  simp only [List.mem_append, List.mem_singleton] at hc
  unfold formulaChar
  rcases hc with ((h | h) | ((((h | h) | h) | h) | h)) | h
  · simp [hnu c h]
  · subst h; decide
  · simp [hcsu c h]
  · simp [natRepr_digits r1 c h]
  · subst h; decide
  · simp [hceu c h]
  · simp [natRepr_digits r2 c h]
  · subst h; decide

theorem upper_ne_colon (c : Char) (h : isUpperAZ c = true) : c ≠ ':' := by
  intro he
  unfold isUpperAZ at h
  rw [he] at h
  exact absurd h (by decide)

theorem digit_ne_colon (c : Char) (h : isDigitChar c = true) : c ≠ ':' := by
  intro he
  unfold isDigitChar at h
  rw [he] at h
  exact absurd h (by decide)

theorem digit_not_upper (c : Char) (h : isDigitChar c = true) : isUpperAZ c = false := by
  unfold isDigitChar at h
  unfold isUpperAZ
  simp only [Bool.and_eq_true, decide_eq_true_eq] at h
  simp only [Bool.and_eq_false_iff, decide_eq_false_iff_not]
  omega

/-! ### Parse round-trips for constructed range formulas -/

theorem splitAtColon_append (l r : List Char) (hl : ∀ c ∈ l, c ≠ ':') :
    splitAtColon (l ++ ':' :: r) = some (l, r) := by
  induction l with
  | nil => simp [splitAtColon]
  | cons a t ih =>
    rw [List.cons_append]
    unfold splitAtColon
    rw [if_neg (hl a (by simp))]
    rw [ih (fun c hc => hl c (by simp [hc]))]

theorem parseRangeRef_of_wf (colS colE : String) (r1 r2 : Nat)
    (hcs : colS.data ≠ []) (hcsu : ∀ c ∈ colS.data, isUpperAZ c = true)
    (hce : colE.data ≠ []) (hceu : ∀ c ∈ colE.data, isUpperAZ c = true) :
    parseRangeRef (colS ++ natRepr r1 ++ ":" ++ colE ++ natRepr r2) =
      some (colS, r1, colE, r2) := by
  unfold parseRangeRef
  have hdata : (colS ++ natRepr r1 ++ ":" ++ colE ++ natRepr r2).data =
      (colS.data ++ (natRepr r1).data) ++ ':' :: (colE.data ++ (natRepr r2).data) := by
    simp only [String.data_append]
    simp [List.append_assoc]
  rw [hdata]
  rw [splitAtColon_append _ _ (by
    intro c hc
    simp only [List.mem_append] at hc
    rcases hc with h | h
    · exact upper_ne_colon c (hcsu c h)
    · exact digit_ne_colon c (natRepr_digits r1 c h))]
  have h1 : (⟨colS.data ++ (natRepr r1).data⟩ : String) = colS ++ natRepr r1 := by
    apply strEqOfData
    simp [String.data_append]
  have h2 : (⟨colE.data ++ (natRepr r2).data⟩ : String) = colE ++ natRepr r2 := by
    apply strEqOfData
    simp [String.data_append]
  simp only [h1, h2, parseCellAddr_of_wf colS r1 hcs hcsu,
    parseCellAddr_of_wf colE r2 hce hceu]

theorem takeWhile_stops {p : Char → Bool} (l rest : List Char)
    (hall : ∀ c ∈ l, p c = true)
    (hstop : ∀ c, rest.head? = some c → p c = false) :
    (l ++ rest).takeWhile p = l ∧ (l ++ rest).drop l.length = rest := by
  constructor
  · rw [takeWhile_append_all hall]
    cases rest with
    | nil => simp
    | cons a t =>
      have : p a = false := hstop a rfl
      simp [List.takeWhile_cons, this]
  · exact List.drop_left l rest

theorem readCellRaw_of_wf (l d rest : List Char)
    (hl : l ≠ []) (hlu : ∀ c ∈ l, isUpperAZ c = true)
    (hd : d ≠ []) (hdd : ∀ c ∈ d, isDigitChar c = true)
    (hrest : ∀ c, rest.head? = some c → isDigitChar c = false) :
    readCellRaw (l ++ d ++ rest) = some (l ++ d, rest) := by
  have hstop1 : ∀ c, (d ++ rest).head? = some c → isUpperAZ c = false := by
    intro c hc
    cases d with
    | nil => exact absurd rfl hd
    | cons a t =>
      simp only [List.cons_append, List.head?_cons, Option.some.injEq] at hc
      subst hc
      exact digit_not_upper a (hdd a (by simp))
  have htw1 := @takeWhile_stops isUpperAZ l (d ++ rest) hlu hstop1
  have htw2 := @takeWhile_stops isDigitChar d rest hdd hrest
  unfold readCellRaw
  rw [List.append_assoc]
  rw [htw1.1, htw1.2, htw2.1, htw2.2]
  have hlne : l.isEmpty = false := by rw [List.isEmpty_eq_false]; exact hl
  have hdne : d.isEmpty = false := by rw [List.isEmpty_eq_false]; exact hd
  rw [hlne, hdne]
  simp [List.append_assoc]

theorem parseAggApp_none_of_take (name f : String)
    (h : (strUpper f).data.take (name.data.length + 1) ≠ name.data ++ ['(']) :
    parseAggApp name f = none := by
  unfold parseAggApp
  rw [if_neg h]

/-- Non-matching head literal ⇒ the regex fails. -/
theorem parseAggApp_none_lit (name lit rest : String)
    (hup : strUpper (lit ++ rest) = lit ++ rest)
    (hlen : name.data.length + 1 ≤ lit.data.length)
    (hne : lit.data.take (name.data.length + 1) ≠ name.data ++ ['(']) :
    parseAggApp name (lit ++ rest) = none := by
  apply parseAggApp_none_of_take
  rw [hup, String.data_append, List.take_append_of_le_length hlen]
  exact hne

/-- The start-anchored aggregate regex accepts `NAME(range)` followed by any
trailing text without lower-case letters, and captures the range. -/
theorem parseAggApp_pos (name colS colE : String) (r1 r2 : Nat) (tail : String)
    (hnu : ∀ c ∈ name.data, isUpperAZ c = true)
    (hcs : colS.data ≠ []) (hcsu : ∀ c ∈ colS.data, isUpperAZ c = true)
    (hce : colE.data ≠ []) (hceu : ∀ c ∈ colE.data, isUpperAZ c = true)
    (htail : ∀ c ∈ tail.data, isLowerAZ c = false) :
    parseAggApp name
        (name ++ "(" ++ (colS ++ natRepr r1 ++ ":" ++ colE ++ natRepr r2) ++ ")" ++ tail) =
      some (colS ++ natRepr r1 ++ ":" ++ colE ++ natRepr r2) := by
  have hup : strUpper
      (name ++ "(" ++ (colS ++ natRepr r1 ++ ":" ++ colE ++ natRepr r2) ++ ")" ++ tail) =
      name ++ "(" ++ (colS ++ natRepr r1 ++ ":" ++ colE ++ natRepr r2) ++ ")" ++ tail := by
    apply strUpper_eq_self_of_no_lower
    intro c hc
    rw [String.data_append] at hc
    rcases List.mem_append.mp hc with h | h
    · exact formulaChar_not_lower c (formulaChar_of_parts name colS colE r1 r2 hnu hcsu hceu c h)
    · exact htail c h
  have hdata :
      (name ++ "(" ++ (colS ++ natRepr r1 ++ ":" ++ colE ++ natRepr r2) ++ ")" ++ tail).data =
      (name.data ++ '(' ::
        ((colS.data ++ (natRepr r1).data) ++
          ':' :: ((colE.data ++ (natRepr r2).data) ++ ')' :: tail.data))) := by
    simp only [String.data_append]
    simp [List.append_assoc]
  unfold parseAggApp
  rw [hup, hdata]
  have htake : (name.data ++ '(' ::
      ((colS.data ++ (natRepr r1).data) ++
        ':' :: ((colE.data ++ (natRepr r2).data) ++ ')' :: tail.data))).take
        (name.data.length + 1) = name.data ++ ['('] := by
    rw [List.take_append]
    simp
  have hdrop : (name.data ++ '(' ::
      ((colS.data ++ (natRepr r1).data) ++
        ':' :: ((colE.data ++ (natRepr r2).data) ++ ')' :: tail.data))).drop
        (name.data.length + 1) =
      (colS.data ++ (natRepr r1).data) ++
        ':' :: ((colE.data ++ (natRepr r2).data) ++ ')' :: tail.data) := by
    rw [List.drop_append]
    simp
  rw [if_pos htake, hdrop]
  have hread1 := readCellRaw_of_wf colS.data (natRepr r1).data
      (':' :: ((colE.data ++ (natRepr r2).data) ++ ')' :: tail.data))
      hcs hcsu (natRepr_ne_nil r1) (natRepr_digits r1)
      (by intro c hc; simp only [List.head?_cons, Option.some.injEq] at hc; subst hc; decide)
  have hread2 := readCellRaw_of_wf colE.data (natRepr r2).data (')' :: tail.data)
      hce hceu (natRepr_ne_nil r2) (natRepr_digits r2)
      (by intro c hc; simp only [List.head?_cons, Option.some.injEq] at hc; subst hc; decide)
  simp only [List.append_assoc] at hread1 hread2 ⊢
  simp only [hread1, hread2]
  apply congrArg some
  apply strEqOfData
  simp [String.data_append, List.append_assoc]

/-! ### Pointwise filter / flatMap exchange lemmas -/

theorem filter_flatMap {α β : Type} (l : List α) (p : α → Bool) (f : α → List β) :
    (l.filter p).flatMap f = l.flatMap (fun x => if p x then f x else []) := by
  induction l with
  | nil => rfl
  | cons a t ih =>
    by_cases h : p a
    · simp only [List.filter_cons, h, if_true, List.flatMap_cons, ih]
    · simp only [List.filter_cons, h, if_false, List.flatMap_cons, ih, Bool.false_eq_true,
        List.nil_append]

theorem filter_filterMap {α β : Type} (l : List α) (p : α → Bool) (g : α → Option β) :
    (l.filter p).filterMap g = l.filterMap (fun x => if p x then g x else none) := by
  induction l with
  | nil => rfl
  | cons a t ih =>
    by_cases h : p a
    · simp only [List.filter_cons, h, if_true, List.filterMap_cons, ih]
    · simp only [List.filter_cons, h, if_false, List.filterMap_cons, ih, Bool.false_eq_true]

/-- The optimized pre-filtered iteration of
`_get_range_values_with_visibility` computes exactly the claim's
per-cell-filtered value list. -/
theorem range_values_characterization (ws : Worksheet) (compiled : CompiledVisibility)
    (colS colE : String) (r1 r2 : Nat)
    (hcs : colS.data ≠ []) (hcsu : ∀ c ∈ colS.data, isUpperAZ c = true)
    (hce : colE.data ≠ []) (hceu : ∀ c ∈ colE.data, isUpperAZ c = true) :
    _get_range_values_with_visibility ws
        (colS ++ natRepr r1 ++ ":" ++ colE ++ natRepr r2) compiled =
      .ok (specVisibleValues ws compiled r1 r2
        (column_index_from_string colS) (column_index_from_string colE)) := by
  have hup : strUpper (colS ++ natRepr r1 ++ ":" ++ colE ++ natRepr r2) =
      colS ++ natRepr r1 ++ ":" ++ colE ++ natRepr r2 := by
    apply strUpper_eq_self_of_no_lower
    intro c hc
    simp only [String.data_append, List.mem_append, List.mem_singleton] at hc
    rcases hc with (((h | h) | h) | h) | h
    · exact isLowerAZ_eq_false_of_upper c (hcsu c h)
    · exact isLowerAZ_eq_false_of_digit c (natRepr_digits r1 c h)
    · subst h; decide
    · exact isLowerAZ_eq_false_of_upper c (hceu c h)
    · exact isLowerAZ_eq_false_of_digit c (natRepr_digits r2 c h)
  unfold _get_range_values_with_visibility
  rw [hup, parseRangeRef_of_wf colS colE r1 r2 hcs hcsu hce hceu]
  unfold get_visible_range_indices specVisibleValues
  apply congrArg Except.ok
  rw [filter_flatMap]
  apply List.flatMap_congr
  intro row hrow
  by_cases hr : row ∈ compiled.hidden_rows
  · have hb : decide (row ∉ compiled.hidden_rows) = false := by simp [hr]
    rw [hb]
    simp only [Bool.false_eq_true, if_false]
    symm
    rw [List.filterMap_eq_nil_iff]
    intro c hc
    rw [if_neg]
    intro hcon
    exact hcon.1 hr
  · have hb : decide (row ∉ compiled.hidden_rows) = true := by simp [hr]
    rw [hb]
    simp only [if_true]
    rw [filter_filterMap]
    apply List.filterMap_congr
    intro c hcmem
    by_cases hcol : get_column_letter c ∈ compiled.hidden_cols
    · have hb2 : decide (get_column_letter c ∉ compiled.hidden_cols) = false := by simp [hcol]
      rw [hb2]
      simp only [Bool.false_eq_true, if_false]
      rw [if_neg]
      intro hcon
      exact hcon.2.1 hcol
    · have hb2 : decide (get_column_letter c ∉ compiled.hidden_cols) = true := by simp [hcol]
      rw [hb2]
      simp only [if_true]
      by_cases hcell : cellAddr c row ∈ compiled.hidden_cells
      · rw [if_pos hcell, if_neg]
        intro hcon
        exact hcon.2.2 hcell
      · rw [if_neg hcell, if_pos ⟨hr, hcol, hcell⟩]

theorem str_append_empty (s : String) : s ++ "" = s := by
  apply strEqOfData
  rw [String.data_append]
  simp

/-- With the file loaded as xlsx and an existing sheet explicitly named,
`execute_formula` reduces to the formula body over the compiled ambient
visibility. -/
theorem execute_formula_reduces
    (ctx : SpreadsheetContext) (fid S : String) (wb : Workbook) (ws : Worksheet)
    (hraw : ctx.raw_bytes.lookup fid = some (.xlsx wb))
    (hws : wb.sheets.lookup S = some ws) (hS : S ≠ "") (f : String) :
    execute_formula ctx f fid (some S) =
      match evalFormulaBody ws
          (get_compiled_visibility fid (get_filename_for_file_id ctx fid) (some S)
            ctx.current_visibility) (stripEq f) with
      | .ok r => r
      | .error e => .err e := by
  unfold execute_formula get_cached_workbook
  rw [hraw]
  simp only [Option.isNone_some, Bool.false_eq_true, if_false]
  have hcond : ¬ ((some S : Option String) = none ∨ (some S : Option String) = some "") := by
    simp [hS]
  rw [if_neg hcond]
  simp only [Option.getD_some]
  rw [hws]
  simp only [Option.isNone_some, Bool.false_eq_true, if_false, Option.getD_some]

theorem take_ne_of_get_ne {l m : List Char} {n i : Nat} (hi : i < n)
    (hne : l[i]? ≠ m[i]?) : l.take n ≠ m := by
  intro heq
  have hcong := congrArg (fun x => x[i]?) heq
  simp only at hcong
  rw [List.getElem?_take_of_lt hi] at hcong
  exact hne hcong

/-- A differently-named aggregate does not match: the pattern and the
formula disagree at character index `i` of the head literal. -/
theorem parseAggApp_skip (name other rng : String) (i : Nat)
    (hup : strUpper (other ++ "(" ++ rng ++ ")") = other ++ "(" ++ rng ++ ")")
    (hi : i < name.data.length + 1) (hio : i < other.data.length)
    (hne : other.data[i]? ≠ (name.data ++ ['('])[i]?) :
    parseAggApp name (other ++ "(" ++ rng ++ ")") = none := by
  apply parseAggApp_none_of_take
  rw [hup]
  have hdata : (other ++ "(" ++ rng ++ ")").data =
      other.data ++ ('(' :: (rng.data ++ [')'])) := by
    simp only [String.data_append]
    simp [List.append_assoc]
  rw [hdata]
  apply take_ne_of_get_ne hi
  rw [List.getElem?_append_left hio]
  exact hne

/-- Shared workhorse: each of the five aggregates over a well-formed range
returns the aggregate of exactly the visible numeric cells. -/
theorem agg_formula_spec
    (ctx : SpreadsheetContext) (fid S colS colE : String) (wb : Workbook)
    (ws : Worksheet) (r1 r2 : Nat)
    (hraw : ctx.raw_bytes.lookup fid = some (.xlsx wb))
    (hws : wb.sheets.lookup S = some ws) (hS : S ≠ "")
    (hcs : colS.data ≠ []) (hcsu : ∀ c ∈ colS.data, isUpperAZ c = true)
    (hce : colE.data ≠ []) (hceu : ∀ c ∈ colE.data, isUpperAZ c = true)
    (compiled : CompiledVisibility) (rng : String) (vals : List Int)
    (hcompiled : compiled = get_compiled_visibility fid (get_filename_for_file_id ctx fid)
      (some S) ctx.current_visibility)
    (hrng : rng = colS ++ natRepr r1 ++ ":" ++ colE ++ natRepr r2)
    (hvals : vals = specVisibleValues ws compiled r1 r2
      (column_index_from_string colS) (column_index_from_string colE)) :
    (execute_formula ctx ("SUM" ++ "(" ++ rng ++ ")") fid (some S) =
        .val (.num (if vals.isEmpty then 0 else pySum vals))) ∧
    (execute_formula ctx ("AVERAGE" ++ "(" ++ rng ++ ")") fid (some S) =
        (if vals.isEmpty then .val (.num 0)
         else .ratVal ((pySum vals : ℚ) / vals.length))) ∧
    (execute_formula ctx ("COUNT" ++ "(" ++ rng ++ ")") fid (some S) =
        .val (.num vals.length)) ∧
    (execute_formula ctx ("MAX" ++ "(" ++ rng ++ ")") fid (some S) =
        .val (.num (if vals.isEmpty then 0 else pyMax vals))) ∧
    (execute_formula ctx ("MIN" ++ "(" ++ rng ++ ")") fid (some S) =
        .val (.num (if vals.isEmpty then 0 else pyMin vals))) := by
  subst hvals
  subst hrng
  subst hcompiled
  have hchar := range_values_characterization ws
    (get_compiled_visibility fid (get_filename_for_file_id ctx fid) (some S)
      ctx.current_visibility) colS colE r1 r2 hcs hcsu hce hceu
  have hform : ∀ name : String, (∀ c ∈ name.data, isUpperAZ c = true) →
      stripEq (name ++ "(" ++ (colS ++ natRepr r1 ++ ":" ++ colE ++ natRepr r2) ++ ")") =
        name ++ "(" ++ (colS ++ natRepr r1 ++ ":" ++ colE ++ natRepr r2) ++ ")" ∧
      strUpper (name ++ "(" ++ (colS ++ natRepr r1 ++ ":" ++ colE ++ natRepr r2) ++ ")") =
        name ++ "(" ++ (colS ++ natRepr r1 ++ ":" ++ colE ++ natRepr r2) ++ ")" ∧
      parseAggApp name
          (name ++ "(" ++ (colS ++ natRepr r1 ++ ":" ++ colE ++ natRepr r2) ++ ")") =
        some (colS ++ natRepr r1 ++ ":" ++ colE ++ natRepr r2) := by
    intro name hnu
    have hfc := formulaChar_of_parts name colS colE r1 r2 hnu hcsu hceu
    have hupf := strUpper_eq_self_of_no_lower
      (name ++ "(" ++ (colS ++ natRepr r1 ++ ":" ++ colE ++ natRepr r2) ++ ")")
      (fun c hc => formulaChar_not_lower c (hfc c hc))
    refine ⟨?_, hupf, ?_⟩
    · apply stripEq_eq_self
      · intro c hc
        exact formulaChar_not_ws c (hfc c hc)
      · intro c hc
        apply formulaChar_ne_eqsign
        apply hfc
        exact List.mem_of_mem_head? hc
    · have hp := parseAggApp_pos name colS colE r1 r2 "" hnu hcs hcsu hce hceu (by simp)
      rwa [str_append_empty] at hp
  have hred := fun f => execute_formula_reduces ctx fid S wb ws hraw hws hS f
  refine ⟨?_, ?_, ?_, ?_, ?_⟩
  · have h1 := hform "SUM" (by decide)
    rw [hred _, h1.1]
    unfold evalFormulaBody
    simp only [h1.2.2, hchar]
    rfl
  · have h1 := hform "AVERAGE" (by decide)
    rw [hred _, h1.1]
    unfold evalFormulaBody
    rw [parseAggApp_skip "SUM" "AVERAGE" _ 0 h1.2.1 (by decide) (by decide) (by decide)]
    simp only [h1.2.2, hchar]
    rfl
  · have h1 := hform "COUNT" (by decide)
    rw [hred _, h1.1]
    unfold evalFormulaBody
    rw [parseAggApp_skip "SUM" "COUNT" _ 0 h1.2.1 (by decide) (by decide) (by decide),
      parseAggApp_skip "AVERAGE" "COUNT" _ 0 h1.2.1 (by decide) (by decide) (by decide)]
    simp only [h1.2.2, hchar]
    rfl
  · have h1 := hform "MAX" (by decide)
    rw [hred _, h1.1]
    unfold evalFormulaBody
    rw [parseAggApp_skip "SUM" "MAX" _ 0 h1.2.1 (by decide) (by decide) (by decide),
      parseAggApp_skip "AVERAGE" "MAX" _ 0 h1.2.1 (by decide) (by decide) (by decide),
      parseAggApp_skip "COUNT" "MAX" _ 0 h1.2.1 (by decide) (by decide) (by decide)]
    simp only [h1.2.2, hchar]
    rfl
  · have h1 := hform "MIN" (by decide)
    rw [hred _, h1.1]
    unfold evalFormulaBody
    rw [parseAggApp_skip "SUM" "MIN" _ 0 h1.2.1 (by decide) (by decide) (by decide),
      parseAggApp_skip "AVERAGE" "MIN" _ 0 h1.2.1 (by decide) (by decide) (by decide),
      parseAggApp_skip "COUNT" "MIN" _ 0 h1.2.1 (by decide) (by decide) (by decide),
      parseAggApp_skip "MAX" "MIN" _ 1 h1.2.1 (by decide) (by decide) (by decide)]
    simp only [h1.2.2, hchar]
    rfl

/-- C2: for every well-formed range formula (SUM/AVERAGE/COUNT/MAX/MIN) over
a loaded sheet with a compiled visibility, `execute_formula` aggregates
exactly those numeric cells of the range whose row is not in `hidden_rows`,
whose column is not in `hidden_cols`, and whose address is not in
`hidden_cells` (the `specVisibleValues` list). -/
theorem range_visibility_enforcement
    (ctx : SpreadsheetContext) (fid S colS colE : String) (wb : Workbook)
    (ws : Worksheet) (r1 r2 : Nat)
    (hraw : ctx.raw_bytes.lookup fid = some (.xlsx wb))
    (hws : wb.sheets.lookup S = some ws) (hS : S ≠ "")
    (hcs : colS.data ≠ []) (hcsu : ∀ c ∈ colS.data, isUpperAZ c = true)
    (hce : colE.data ≠ []) (hceu : ∀ c ∈ colE.data, isUpperAZ c = true)
    (compiled : CompiledVisibility) (rng : String) (vals : List Int)
    (hcompiled : compiled = get_compiled_visibility fid (get_filename_for_file_id ctx fid)
      (some S) ctx.current_visibility)
    (hrng : rng = colS ++ natRepr r1 ++ ":" ++ colE ++ natRepr r2)
    (hvals : vals = specVisibleValues ws compiled r1 r2
      (column_index_from_string colS) (column_index_from_string colE)) :
    (execute_formula ctx ("SUM" ++ "(" ++ rng ++ ")") fid (some S) =
        .val (.num (if vals.isEmpty then 0 else pySum vals))) ∧
    (execute_formula ctx ("AVERAGE" ++ "(" ++ rng ++ ")") fid (some S) =
        (if vals.isEmpty then .val (.num 0)
         else .ratVal ((pySum vals : ℚ) / vals.length))) ∧
    (execute_formula ctx ("COUNT" ++ "(" ++ rng ++ ")") fid (some S) =
        .val (.num vals.length)) ∧
    (execute_formula ctx ("MAX" ++ "(" ++ rng ++ ")") fid (some S) =
        .val (.num (if vals.isEmpty then 0 else pyMax vals))) ∧
    (execute_formula ctx ("MIN" ++ "(" ++ rng ++ ")") fid (some S) =
        .val (.num (if vals.isEmpty then 0 else pyMin vals))) :=
  agg_formula_spec ctx fid S colS colE wb ws r1 r2 hraw hws hS hcs hcsu hce hceu
    compiled rng vals hcompiled hrng hvals

theorem range_visibility_enforcement_witness :
    (execute_formula exampleCtx
        ("SUM" ++ "(" ++ ("A" ++ natRepr 1 ++ ":" ++ "A" ++ natRepr 3) ++ ")")
        "f1" (some "Sheet1") =
      .val (.num (if (specVisibleValues exampleWs
          (get_compiled_visibility "f1" (get_filename_for_file_id exampleCtx "f1")
            (some "Sheet1") exampleCtx.current_visibility) 1 3
          (column_index_from_string "A") (column_index_from_string "A")).isEmpty then 0
        else pySum (specVisibleValues exampleWs
          (get_compiled_visibility "f1" (get_filename_for_file_id exampleCtx "f1")
            (some "Sheet1") exampleCtx.current_visibility) 1 3
          (column_index_from_string "A") (column_index_from_string "A"))))) ∧
    execute_formula exampleCtx "=SUM(A1:A3)" "f1" (some "Sheet1") = .val (.num 40) := by
  constructor
  · exact (range_visibility_enforcement exampleCtx "f1" "Sheet1" "A" "A"
      ⟨[("Sheet1", exampleWs)]⟩ exampleWs 1 3 rfl rfl (by decide) (by decide) (by decide)
      (by decide) (by decide) _ _ _ rfl rfl rfl).1
  · decide

/-! ### Ambiguous-sheet rejection -/

theorem pyStrListReprAux_mentions (xs : List String) (n : String) (h : n ∈ xs) :
    ∃ p q, pyStrListReprAux xs = p ++ (n ++ q) := by
  induction xs with
  | nil => simp at h
  | cons x t ih =>
    rcases List.mem_cons.mp h with he | ht
    · subst he
      cases t with
      | nil =>
        refine ⟨"\x27", "\x27", ?_⟩
        show "\x27" ++ n ++ "\x27" = "\x27" ++ (n ++ "\x27")
        rw [String.append_assoc]
      | cons y u =>
        refine ⟨"\x27", "\x27, " ++ pyStrListReprAux (y :: u), ?_⟩
        show "\x27" ++ n ++ "\x27, " ++ pyStrListReprAux (y :: u) =
          "\x27" ++ (n ++ ("\x27, " ++ pyStrListReprAux (y :: u)))
        rw [String.append_assoc, String.append_assoc]
    · cases t with
      | nil => simp at ht
      | cons y u =>
        obtain ⟨p, q, hp⟩ := ih ht
        refine ⟨"\x27" ++ x ++ "\x27, " ++ p, q, ?_⟩
        show "\x27" ++ x ++ "\x27, " ++ pyStrListReprAux (y :: u) =
          "\x27" ++ x ++ "\x27, " ++ p ++ (n ++ q)
        rw [hp]
        simp [String.append_assoc]

theorem ambiguousSheetMsg_mentions (names : List String) (n : String) (h : n ∈ names) :
    ∃ p q, ambiguousSheetMsg names = p ++ (n ++ q) := by
  obtain ⟨p, q, hp⟩ := pyStrListReprAux_mentions names n h
  refine ⟨"Multiple sheets available: [" ++ p,
    q ++ "]. Please specify sheet_name.", ?_⟩
  have hpd := congrArg String.data hp
  apply strEqOfData
  unfold ambiguousSheetMsg pyStrListRepr
  simp only [String.data_append, hpd]
  simp [List.append_assoc]

/-- C6: with no sheet named, a one-sheet workbook auto-selects its sheet,
and a workbook with two or more sheets yields the ambiguity error whose
message names every available sheet. -/
theorem ambiguous_sheet_rejection
    (ctx : SpreadsheetContext) (fid : String) (wb : Workbook)
    (hraw : ctx.raw_bytes.lookup fid = some (.xlsx wb)) :
    (wb.sheetnames.length = 1 →
      ∀ formula, execute_formula ctx formula fid none =
        execute_formula ctx formula fid (some (wb.sheetnames.headD ""))) ∧
    (2 ≤ wb.sheetnames.length →
      (∀ formula, execute_formula ctx formula fid none =
          .err (ambiguousSheetMsg wb.sheetnames)) ∧
      (∀ n ∈ wb.sheetnames, ∃ p q, ambiguousSheetMsg wb.sheetnames = p ++ (n ++ q))) := by
  constructor
  · intro h1 formula
    unfold execute_formula get_cached_workbook
    rw [hraw]
    simp only [Option.isNone_some, Bool.false_eq_true, if_false]
    rw [if_pos (show True ∨ (none : Option String) = some "" from Or.inl trivial),
      if_pos h1]
    by_cases hname : wb.sheetnames.headD "" = ""
    · have hR : ((some (wb.sheetnames.headD "") : Option String) = none ∨
          (some (wb.sheetnames.headD "") : Option String) = some "") := by
        right
        rw [hname]
      rw [if_pos hR]
    · have hR : ¬ ((some (wb.sheetnames.headD "") : Option String) = none ∨
          (some (wb.sheetnames.headD "") : Option String) = some "") := by
        intro hcon
        rcases hcon with hc | hc
        · exact Option.noConfusion hc
        · exact hname (Option.some.inj hc)
      rw [if_neg hR]
      simp only [Option.getD_some]
  · intro h2
    constructor
    · intro formula
      unfold execute_formula get_cached_workbook
      rw [hraw]
      simp only [Option.isNone_some, Bool.false_eq_true, if_false]
      rw [if_pos (show True ∨ (none : Option String) = some "" from Or.inl trivial),
        if_neg (by omega : ¬ wb.sheetnames.length = 1)]
    · intro n hn
      exact ambiguousSheetMsg_mentions wb.sheetnames n hn

theorem ambiguous_sheet_rejection_witness :
    2 ≤ exampleWb6.sheetnames.length ∧
    execute_formula exampleCtx6 "=SUM(A1:A3)" "f6" none =
      .err (ambiguousSheetMsg exampleWb6.sheetnames) ∧
    (∃ p q, ambiguousSheetMsg exampleWb6.sheetnames = p ++ ("S1" ++ q)) ∧
    (∃ p q, ambiguousSheetMsg exampleWb6.sheetnames = p ++ ("S2" ++ q)) := by
  have h := ambiguous_sheet_rejection exampleCtx6 "f6" exampleWb6 rfl
  exact ⟨by decide, (h.2 (by decide)).1 "=SUM(A1:A3)",
    (h.2 (by decide)).2 "S1" (by decide), (h.2 (by decide)).2 "S2" (by decide)⟩

/-! ### Formula grammar behaviour -/

theorem head?_append_left {l r : List Char} {c : Char} (h : l.head? = some c) :
    (l ++ r).head? = some c := by
  cases l with
  | nil => simp at h
  | cons a t => simpa using h

/-- The aggregate regexes are only anchored at the start, so a well-formed
aggregate followed by arbitrary trailing text evaluates as if the trailing
text were absent. -/
theorem execute_sum_with_tail
    (ctx : SpreadsheetContext) (fid S colS colE : String) (wb : Workbook)
    (ws : Worksheet) (r1 r2 : Nat) (tail : String)
    (hraw : ctx.raw_bytes.lookup fid = some (.xlsx wb))
    (hws : wb.sheets.lookup S = some ws) (hS : S ≠ "")
    (hcs : colS.data ≠ []) (hcsu : ∀ c ∈ colS.data, isUpperAZ c = true)
    (hce : colE.data ≠ []) (hceu : ∀ c ∈ colE.data, isUpperAZ c = true)
    (htail : ∀ c ∈ tail.data, isLowerAZ c = false ∧ c.isWhitespace = false) :
    execute_formula ctx
        ("SUM" ++ "(" ++ (colS ++ natRepr r1 ++ ":" ++ colE ++ natRepr r2) ++ ")" ++ tail)
        fid (some S) =
      execute_formula ctx
        ("SUM" ++ "(" ++ (colS ++ natRepr r1 ++ ":" ++ colE ++ natRepr r2) ++ ")")
        fid (some S) := by
  have hfc := formulaChar_of_parts "SUM" colS colE r1 r2 (by decide) hcsu hceu
  have hheadcore : (("SUM" ++ "(" ++ (colS ++ natRepr r1 ++ ":" ++ colE ++ natRepr r2)
      ++ ")").data).head? = some 'S' := by
    rw [String.data_append]
    apply head?_append_left
    rw [String.data_append]
    apply head?_append_left
    rw [String.data_append]
    apply head?_append_left
    rfl
  have hheadtail : (("SUM" ++ "(" ++ (colS ++ natRepr r1 ++ ":" ++ colE ++ natRepr r2)
      ++ ")" ++ tail).data).head? = some 'S' := by
    rw [String.data_append]
    exact head?_append_left hheadcore
  have hstrip1 : stripEq ("SUM" ++ "(" ++ (colS ++ natRepr r1 ++ ":" ++ colE ++
      natRepr r2) ++ ")" ++ tail) =
      "SUM" ++ "(" ++ (colS ++ natRepr r1 ++ ":" ++ colE ++ natRepr r2) ++ ")" ++ tail := by
    apply stripEq_eq_self
    · intro c hc
      rw [String.data_append] at hc
      rcases List.mem_append.mp hc with h | h
      · exact formulaChar_not_ws c (hfc c h)
      · exact (htail c h).2
    · intro c hc
      rw [hheadtail] at hc
      cases hc
      decide
  have hstrip2 : stripEq ("SUM" ++ "(" ++ (colS ++ natRepr r1 ++ ":" ++ colE ++
      natRepr r2) ++ ")") =
      "SUM" ++ "(" ++ (colS ++ natRepr r1 ++ ":" ++ colE ++ natRepr r2) ++ ")" := by
    apply stripEq_eq_self
    · intro c hc
      exact formulaChar_not_ws c (hfc c hc)
    · intro c hc
      rw [hheadcore] at hc
      cases hc
      decide
  rw [execute_formula_reduces ctx fid S wb ws hraw hws hS _,
    execute_formula_reduces ctx fid S wb ws hraw hws hS _]
  rw [hstrip1, hstrip2]
  have hp1 := parseAggApp_pos "SUM" colS colE r1 r2 tail (by decide) hcs hcsu hce hceu
    (fun c hc => (htail c hc).1)
  have hp2 := parseAggApp_pos "SUM" colS colE r1 r2 "" (by decide) hcs hcsu hce hceu
    (by simp)
  rw [str_append_empty] at hp2
  unfold evalFormulaBody
  rw [hp1, hp2]

/-- A formula matching none of the five aggregate prefixes and not equal to
a bare cell reference returns the "Unsupported formula" error result. -/
theorem execute_unsupported
    (ctx : SpreadsheetContext) (fid S : String) (wb : Workbook) (ws : Worksheet)
    (f : String)
    (hraw : ctx.raw_bytes.lookup fid = some (.xlsx wb))
    (hws : wb.sheets.lookup S = some ws) (hS : S ≠ "")
    (hn1 : parseAggApp "SUM" (stripEq f) = none)
    (hn2 : parseAggApp "AVERAGE" (stripEq f) = none)
    (hn3 : parseAggApp "COUNT" (stripEq f) = none)
    (hn4 : parseAggApp "MAX" (stripEq f) = none)
    (hn5 : parseAggApp "MIN" (stripEq f) = none)
    (hcell : parseCellAddr (strUpper (stripEq f)) = none) :
    execute_formula ctx f fid (some S) = .err ("Unsupported formula: " ++ stripEq f) := by
  rw [execute_formula_reduces ctx fid S wb ws hraw hws hS f]
  unfold evalFormulaBody
  rw [hn1, hn2, hn3, hn4, hn5, hcell]
  rfl

/-- C8 (amended): the aggregate patterns are matched only at the start of
the formula, so a supported aggregate with trailing text is accepted and
evaluated as if the trailing text were absent; any formula that neither
begins with a supported aggregate application nor is a bare cell reference
yields an error result (and the embedded engine is total, so no exception
escapes). -/
theorem formula_grammar_amended
    (ctx : SpreadsheetContext) (fid S colS colE : String) (wb : Workbook)
    (ws : Worksheet) (r1 r2 : Nat) (tail : String) (f : String)
    (hraw : ctx.raw_bytes.lookup fid = some (.xlsx wb))
    (hws : wb.sheets.lookup S = some ws) (hS : S ≠ "")
    (hcs : colS.data ≠ []) (hcsu : ∀ c ∈ colS.data, isUpperAZ c = true)
    (hce : colE.data ≠ []) (hceu : ∀ c ∈ colE.data, isUpperAZ c = true)
    (htail : ∀ c ∈ tail.data, isLowerAZ c = false ∧ c.isWhitespace = false)
    (hn1 : parseAggApp "SUM" (stripEq f) = none)
    (hn2 : parseAggApp "AVERAGE" (stripEq f) = none)
    (hn3 : parseAggApp "COUNT" (stripEq f) = none)
    (hn4 : parseAggApp "MAX" (stripEq f) = none)
    (hn5 : parseAggApp "MIN" (stripEq f) = none)
    (hcell : parseCellAddr (strUpper (stripEq f)) = none) :
    (execute_formula ctx
        ("SUM" ++ "(" ++ (colS ++ natRepr r1 ++ ":" ++ colE ++ natRepr r2) ++ ")" ++ tail)
        fid (some S) =
      execute_formula ctx
        ("SUM" ++ "(" ++ (colS ++ natRepr r1 ++ ":" ++ colE ++ natRepr r2) ++ ")")
        fid (some S)) ∧
    execute_formula ctx f fid (some S) = .err ("Unsupported formula: " ++ stripEq f) :=
  ⟨execute_sum_with_tail ctx fid S colS colE wb ws r1 r2 tail hraw hws hS
      hcs hcsu hce hceu htail,
    execute_unsupported ctx fid S wb ws f hraw hws hS hn1 hn2 hn3 hn4 hn5 hcell⟩

theorem formula_grammar_amended_witness :
    (execute_formula exampleCtx
        ("SUM" ++ "(" ++ ("A" ++ natRepr 1 ++ ":" ++ "A" ++ natRepr 3) ++ ")" ++ "XTRA")
        "f1" (some "Sheet1") =
      execute_formula exampleCtx
        ("SUM" ++ "(" ++ ("A" ++ natRepr 1 ++ ":" ++ "A" ++ natRepr 3) ++ ")")
        "f1" (some "Sheet1")) ∧
    execute_formula exampleCtx "FOO(A1:A2)" "f1" (some "Sheet1") =
      .err ("Unsupported formula: " ++ stripEq "FOO(A1:A2)") :=
  formula_grammar_amended exampleCtx "f1" "Sheet1" "A" "A" ⟨[("Sheet1", exampleWs)]⟩
    exampleWs 1 3 "XTRA" "FOO(A1:A2)" rfl rfl (by decide) (by decide) (by decide)
    (by decide) (by decide) (by decide) (by decide) (by decide) (by decide)
    (by decide) (by decide) (by decide)

/-- C8 counterexample: `"SUM(A1:A3)extra"` is not in the claimed grammar,
yet `execute_formula` evaluates it to a number instead of an error. -/
theorem formula_grammar_counterexample :
    execute_formula exampleCtx "SUM(A1:A3)extra" "f1" (some "Sheet1") =
      .val (.num 40) ∧
    ∀ m : String, execute_formula exampleCtx "SUM(A1:A3)extra" "f1" (some "Sheet1") ≠
      .err m := by
  constructor
  · decide
  · intro m h
    rw [(by decide : execute_formula exampleCtx "SUM(A1:A3)extra" "f1" (some "Sheet1") =
      .val (.num 40))] at h
    exact FormulaResult.noConfusion h

/-- C9 counterexample: over the entirely hidden range `A1:A2`, AVERAGE, MAX
and MIN all return the plain number `0`, and the MAX result is literally the
same value as a legitimate `MAX` over a visible cell holding `0` — there is
no distinguishable "no values" condition. -/
theorem degenerate_range_counterexample :
    execute_formula exampleCtx9 "=AVERAGE(A1:A2)" "f9" (some "S") = .val (.num 0) ∧
    execute_formula exampleCtx9 "=MAX(A1:A2)" "f9" (some "S") = .val (.num 0) ∧
    execute_formula exampleCtx9 "=MIN(A1:A2)" "f9" (some "S") = .val (.num 0) ∧
    execute_formula exampleCtx9 "=MAX(B1:B2)" "f9" (some "S") = .val (.num 0) ∧
    execute_formula exampleCtx9 "=MAX(A1:A2)" "f9" (some "S") =
      execute_formula exampleCtx9 "=MAX(B1:B2)" "f9" (some "S") :=
  ⟨by decide, by decide, by decide, by decide, by decide⟩

/-- C9 (amended): over a well-formed range in which every cell is hidden,
empty or non-numeric, SUM and COUNT return 0 — and AVERAGE, MAX and MIN
also return the plain number 0, indistinguishable from a legitimate 0. -/
theorem degenerate_range_amended
    (ctx : SpreadsheetContext) (fid S colS colE : String) (wb : Workbook)
    (ws : Worksheet) (r1 r2 : Nat)
    (hraw : ctx.raw_bytes.lookup fid = some (.xlsx wb))
    (hws : wb.sheets.lookup S = some ws) (hS : S ≠ "")
    (hcs : colS.data ≠ []) (hcsu : ∀ c ∈ colS.data, isUpperAZ c = true)
    (hce : colE.data ≠ []) (hceu : ∀ c ∈ colE.data, isUpperAZ c = true)
    (hempty : specVisibleValues ws
        (get_compiled_visibility fid (get_filename_for_file_id ctx fid) (some S)
          ctx.current_visibility) r1 r2
        (column_index_from_string colS) (column_index_from_string colE) = []) :
    (execute_formula ctx
        ("SUM" ++ "(" ++ (colS ++ natRepr r1 ++ ":" ++ colE ++ natRepr r2) ++ ")")
        fid (some S) = .val (.num 0)) ∧
    (execute_formula ctx
        ("COUNT" ++ "(" ++ (colS ++ natRepr r1 ++ ":" ++ colE ++ natRepr r2) ++ ")")
        fid (some S) = .val (.num 0)) ∧
    (execute_formula ctx
        ("AVERAGE" ++ "(" ++ (colS ++ natRepr r1 ++ ":" ++ colE ++ natRepr r2) ++ ")")
        fid (some S) = .val (.num 0)) ∧
    (execute_formula ctx
        ("MAX" ++ "(" ++ (colS ++ natRepr r1 ++ ":" ++ colE ++ natRepr r2) ++ ")")
        fid (some S) = .val (.num 0)) ∧
    (execute_formula ctx
        ("MIN" ++ "(" ++ (colS ++ natRepr r1 ++ ":" ++ colE ++ natRepr r2) ++ ")")
        fid (some S) = .val (.num 0)) := by
  have h := agg_formula_spec ctx fid S colS colE wb ws r1 r2 hraw hws hS
    hcs hcsu hce hceu _ _ [] rfl rfl hempty.symm
  obtain ⟨h1, h2, h3, h4, h5⟩ := h
  simp only [List.isEmpty_nil, if_true, List.length_nil, Nat.cast_zero] at h1 h2 h3 h4 h5
  exact ⟨h1, h3, h2, h4, h5⟩

/-- C5 counterexample: on the claimed CSV scenario `execute_formula` returns
the `openpyxl` parse error (CSV bytes are not a zip archive), not 300. -/
theorem csv_scenario_counterexample :
    execute_formula csvCtxAfter "=SUM(A2:A4)" "f5" none =
      .err "File is not a zip file" ∧
    execute_formula csvCtxAfter "=SUM(A2:A4)" "f5" none ≠ .val (.num 300) := by
  constructor
  · decide
  · intro h
    rw [(by decide : execute_formula csvCtxAfter "=SUM(A2:A4)" "f5" none =
      .err "File is not a zip file")] at h
    exact FormulaResult.noConfusion h

set_option maxRecDepth 4096 in
/-- C5 (amended): on the claimed scenario, `execute_formula` returns an
error result because the engine re-parses the raw CSV bytes with openpyxl;
the declaration `hiddenRows=[3]` hides sheet row 3 (the cell `A3`, value
200), not row 4; and the built structural context mentions "Rows 3" as
hidden and never emits the strings "100", "200" or "300". -/
theorem csv_scenario_amended :
    execute_formula csvCtxAfter "=SUM(A2:A4)" "f5" none =
      .err "File is not a zip file" ∧
    is_cell_hidden_fast "A3" (get_compiled_visibility "f5" (some "sales.csv")
      (some "Sheet1") (some csvVisibility)) = true ∧
    is_cell_hidden_fast "A4" (get_compiled_visibility "f5" (some "sales.csv")
      (some "Sheet1") (some csvVisibility)) = false ∧
    strContains (build_llm_context csvCtx (some csvVisibility)).1 "Rows 3" = true ∧
    strContains (build_llm_context csvCtx (some csvVisibility)).1 "100" = false ∧
    strContains (build_llm_context csvCtx (some csvVisibility)).1 "200" = false ∧
    strContains (build_llm_context csvCtx (some csvVisibility)).1 "300" = false :=
  ⟨by decide, by decide, by decide, by decide, by decide, by decide, by decide⟩

/-! ### No numeric values in the structural snapshot -/

theorem mem_rangeIncl {x a b : Nat} : x ∈ rangeIncl a b ↔ a ≤ x ∧ x ≤ b := by
  unfold rangeIncl
  rw [List.mem_range'_1]
  omega

theorem mem_rowMajorCells {rc : Nat × Nat} {mR mC : Nat} :
    rc ∈ rowMajorCells mR mC ↔
      (1 ≤ rc.1 ∧ rc.1 ≤ mR) ∧ (1 ≤ rc.2 ∧ rc.2 ≤ mC) := by
  unfold rowMajorCells
  rw [List.mem_flatMap]
  constructor
  · rintro ⟨r, hr, hrc⟩
    rw [List.mem_map] at hrc
    obtain ⟨c, hcm, hceq⟩ := hrc
    subst hceq
    exact ⟨mem_rangeIncl.mp hr, mem_rangeIncl.mp hcm⟩
  · rintro ⟨h1, h2⟩
    refine ⟨rc.1, mem_rangeIncl.mpr h1, ?_⟩
    rw [List.mem_map]
    exact ⟨rc.2, mem_rangeIncl.mpr h2, rfl⟩

theorem cellAddr_inj {c1 r1 c2 r2 : Nat} (h1 : 0 < c1) (h2 : 0 < c2)
    (h : cellAddr c1 r1 = cellAddr c2 r2) : c1 = c2 ∧ r1 = r2 := by
  have p1 := parseCellAddr_cellAddr c1 r1 h1
  have p2 := parseCellAddr_cellAddr c2 r2 h2
  rw [h, p2] at p1
  have hcol : get_column_letter c2 = get_column_letter c1 := by
    injection p1 with p1'
    exact (congrArg Prod.fst p1')
  have hrow : r2 = r1 := by
    injection p1 with p1'
    exact (congrArg Prod.snd p1')
  have hci := congrArg column_index_from_string hcol
  rw [column_index_get_column_letter, column_index_get_column_letter] at hci
  exact ⟨hci.symm, hrow.symm⟩

theorem lookup_map_key {α β : Type} (l : List α) (key : α → String) (v : α → β)
    (hinj : ∀ a ∈ l, ∀ b ∈ l, key a = key b → a = b) (a : α) (ha : a ∈ l) :
    (l.map (fun x => (key x, v x))).lookup (key a) = some (v a) := by
  induction l with
  | nil => simp at ha
  | cons x t ih =>
    simp only [List.map_cons, List.lookup]
    by_cases heq : key a = key x
    · have : a = x := hinj a ha x (by simp) heq
      subst this
      simp [heq]
    · have hbeq : (key a == key x) = false := by
        rw [beq_eq_false_iff_ne]
        exact heq
      rw [hbeq]
      have hat : a ∈ t := by
        rcases List.mem_cons.mp ha with h | h
        · exact absurd (by rw [h]) heq
        · exact h
      exact ih (fun p hp q hq hpq => hinj p (by simp [hp]) q (by simp [hq]) hpq) hat

theorem lookup_filterMap_none {α β : Type} (l : List α)
    (f : α → Option (String × β)) (k : String)
    (h : ∀ a ∈ l, ∀ p, f a = some p → p.1 ≠ k) :
    (l.filterMap f).lookup k = none := by
  induction l with
  | nil => rfl
  | cons x t ih =>
    rw [List.filterMap_cons]
    cases hf : f x with
    | none => exact ih (fun a ha => h a (by simp [ha]))
    | some p =>
      simp only [List.lookup]
      have : (k == p.1) = false := by
        rw [beq_eq_false_iff_ne]
        exact fun he => h x (by simp) p hf he.symm
      rw [this]
      exact ih (fun a ha => h a (by simp [ha]))

/-- Part (a) of the no-leakage invariant: a plain numeric cell is recorded
only in `cell_types` (as `"numeric"`); its address appears in none of the
text-bearing dicts. -/
theorem no_numeric_in_structure (name : String) (sh : XlsxSheet) (r c : Nat) (q : Int)
    (hr1 : 1 ≤ r) (hr2 : r ≤ sh.maxRow) (hc1 : 1 ≤ c) (hc2 : c ≤ sh.maxCol)
    (hraw : isFormulaRaw (sh.raw r c) = none)
    (hval : sh.val r c = .num q) :
    (extract_sheet name sh).cell_types.lookup (cellAddr c r) = some "numeric" ∧
    (extract_sheet name sh).headers.lookup (cellAddr c r) = none ∧
    (extract_sheet name sh).row_labels.lookup (cellAddr c r) = none ∧
    (extract_sheet name sh).text_values.lookup (cellAddr c r) = none ∧
    (extract_sheet name sh).formulas.lookup (cellAddr c r) = none := by
  have hmem : ((r, c) : Nat × Nat) ∈ rowMajorCells sh.maxRow sh.maxCol :=
    mem_rowMajorCells.mpr ⟨⟨hr1, hr2⟩, ⟨hc1, hc2⟩⟩
  have hinj : ∀ a ∈ rowMajorCells sh.maxRow sh.maxCol,
      ∀ b ∈ rowMajorCells sh.maxRow sh.maxCol,
      cellAddr a.2 a.1 = cellAddr b.2 b.1 → a = b := by
    intro a ha b hb hab
    have hA := mem_rowMajorCells.mp ha
    have hB := mem_rowMajorCells.mp hb
    have := cellAddr_inj (by omega) (by omega) hab
    exact Prod.ext (by omega) (by omega)
  refine ⟨?_, ?_, ?_, ?_, ?_⟩
  · have hcls : classifyCell sh r c = "numeric" := by
      unfold classifyCell
      rw [hraw, hval]
      rfl
    exact (lookup_map_key (rowMajorCells sh.maxRow sh.maxCol)
      (fun rc => cellAddr rc.2 rc.1) (fun rc => classifyCell sh rc.1 rc.2)
      hinj (r, c) hmem).trans (congrArg some hcls)
  · apply lookup_filterMap_none
    intro a ha p hp hk
    have hA := mem_rowMajorCells.mp ha
    cases hh : header_row sh with
    | none => rw [hh] at hp; exact Option.noConfusion hp
    | some hrow =>
      rw [hh] at hp
      dsimp only at hp
      by_cases hre : a.1 = hrow
      · rw [if_pos hre] at hp
        cases hv : sh.val a.1 a.2 with
        | str s =>
          rw [hv] at hp
          have hkey : cellAddr a.2 a.1 = cellAddr c r := by
            have h5 := Option.some.inj hp
            rw [← h5] at hk
            exact hk
          have h6 := cellAddr_inj (show 0 < a.2 by omega) (show 0 < c by omega) hkey
          have ha2 : a = (r, c) := Prod.ext (by omega) (by omega)
          rw [ha2, hval] at hv
          exact CellValue.noConfusion hv
        | num qq => rw [hv] at hp; exact Option.noConfusion hp
        | empty => rw [hv] at hp; exact Option.noConfusion hp
      · rw [if_neg hre] at hp
        exact Option.noConfusion hp
  · apply lookup_filterMap_none
    intro a ha p hp hk
    have hA := mem_rowMajorCells.mp ha
    cases hh : header_row sh with
    | none => rw [hh] at hp; exact Option.noConfusion hp
    | some hrow =>
      rw [hh] at hp
      dsimp only at hp
      by_cases hre : a.2 = 1 ∧ hrow < a.1
      · rw [if_pos hre] at hp
        cases hv : sh.val a.1 a.2 with
        | str s =>
          rw [hv] at hp
          dsimp only at hp
          by_cases hm : isMarkerText s
          · rw [if_neg (by simp [hm])] at hp
            exact Option.noConfusion hp
          · rw [if_pos (by simp [hm])] at hp
            have hkey : cellAddr a.2 a.1 = cellAddr c r := by
              have := Option.some.inj hp
              rw [← this] at hk
              exact hk
            have := cellAddr_inj (show 0 < a.2 by omega) (show 0 < c by omega) hkey
            have ha2 : a = (r, c) := Prod.ext (by omega) (by omega)
            rw [ha2, hval] at hv
            exact CellValue.noConfusion hv
        | num qq => rw [hv] at hp; exact Option.noConfusion hp
        | empty => rw [hv] at hp; exact Option.noConfusion hp
      · rw [if_neg hre] at hp
        exact Option.noConfusion hp
  · apply lookup_filterMap_none
    intro a ha p hp hk
    have hA := mem_rowMajorCells.mp ha
    by_cases hform : (isFormulaRaw (sh.raw a.1 a.2)).isSome
    · rw [if_pos hform] at hp
      exact Option.noConfusion hp
    · rw [if_neg hform] at hp
      cases hv : sh.val a.1 a.2 with
      | str s =>
        rw [hv] at hp
        dsimp only at hp
        by_cases hs : s = ""
        · rw [if_pos hs] at hp
          exact Option.noConfusion hp
        · rw [if_neg hs] at hp
          have hkey : cellAddr a.2 a.1 = cellAddr c r := by
            have := Option.some.inj hp
            rw [← this] at hk
            exact hk
          have := cellAddr_inj (show 0 < a.2 by omega) (show 0 < c by omega) hkey
          have ha2 : a = (r, c) := Prod.ext (by omega) (by omega)
          rw [ha2, hval] at hv
          exact CellValue.noConfusion hv
      | num qq => rw [hv] at hp; exact Option.noConfusion hp
      | empty => rw [hv] at hp; exact Option.noConfusion hp
  · apply lookup_filterMap_none
    intro a ha p hp hk
    have hA := mem_rowMajorCells.mp ha
    cases hf : isFormulaRaw (sh.raw a.1 a.2) with
    | none => rw [hf] at hp; exact Option.noConfusion hp
    | some ff =>
      rw [hf] at hp
      have hkey : cellAddr a.2 a.1 = cellAddr c r := by
        have := Option.some.inj hp
        rw [← this] at hk
        exact hk
      have := cellAddr_inj (show 0 < a.2 by omega) (show 0 < c by omega) hkey
      have ha2 : a = (r, c) := Prod.ext (by omega) (by omega)
      rw [ha2, hraw] at hf
      exact Option.noConfusion hf

theorem headerScore_numEquiv (sh1 sh2 : XlsxSheet) (h : numEquiv sh1 sh2) :
    headerScore sh1 = headerScore sh2 := by
  obtain ⟨hR, hC, hraw, hval⟩ := h
  funext row
  unfold headerScore
  rw [hC]
  have hfil : (rangeIncl 1 sh2.maxCol).filter (fun c => isHeaderTextCell (sh1.val row c)) =
      (rangeIncl 1 sh2.maxCol).filter (fun c => isHeaderTextCell (sh2.val row c)) := by
    apply List.filter_congr
    intro c _
    rcases hval row c with he | ⟨q1, q2, h1, h2⟩
    · rw [he]
    · simp only [h1, h2, isHeaderTextCell]
  rw [hfil]

theorem header_row_numEquiv (sh1 sh2 : XlsxSheet) (h : numEquiv sh1 sh2) :
    header_row sh1 = header_row sh2 := by
  have hs := headerScore_numEquiv sh1 sh2 h
  obtain ⟨hR, _, _, _⟩ := h
  unfold header_row findHeaderRowAux
  rw [hR, hs]

theorem extract_sheet_numEquiv (name : String) (sh1 sh2 : XlsxSheet)
    (h : numEquiv sh1 sh2) :
    extract_sheet name sh1 = extract_sheet name sh2 := by
  have hhr := header_row_numEquiv sh1 sh2 h
  obtain ⟨hR, hC, hraw, hval⟩ := h
  unfold extract_sheet
  rw [hR, hC, hhr]
  simp only [SheetStructure.mk.injEq]
  refine ⟨trivial, trivial, trivial, ?_, ?_, ?_, ?_, ?_⟩
  · apply List.filterMap_congr
    intro rc _
    rcases hval rc.1 rc.2 with he | ⟨q1, q2, h1, h2⟩
    · simp only [he]
    · cases hh2 : header_row sh2 with
      | none => simp only [hh2]
      | some hr => simp only [hh2, h1, h2, ite_self]
  · apply List.filterMap_congr
    intro rc _
    rcases hval rc.1 rc.2 with he | ⟨q1, q2, h1, h2⟩
    · simp only [he]
    · cases hh2 : header_row sh2 with
      | none => simp only [hh2]
      | some hr => simp only [hh2, h1, h2, ite_self]
  · apply List.filterMap_congr
    intro rc _
    rcases hval rc.1 rc.2 with he | ⟨q1, q2, h1, h2⟩
    · simp only [he, hraw rc.1 rc.2]
    · simp only [hraw rc.1 rc.2, h1, h2, ite_self]
  · apply List.filterMap_congr
    intro rc _
    simp only [hraw rc.1 rc.2]
  · apply List.map_congr_left
    intro rc _
    have hcls : classifyCell sh1 rc.1 rc.2 = classifyCell sh2 rc.1 rc.2 := by
      unfold classifyCell
      rw [hraw rc.1 rc.2]
      rcases hval rc.1 rc.2 with he | ⟨q1, q2, h1, h2⟩
      · rw [he]
      · simp only [h1, h2]
    simp only [hcls]

theorem extract_structure_numEquiv (wb1 wb2 : List (String × XlsxSheet))
    (h : wbNumEquiv wb1 wb2) :
    extract_structure_from_excel wb1 = extract_structure_from_excel wb2 := by
  induction h with
  | nil => rfl
  | cons hhead htail ih =>
    unfold extract_structure_from_excel at ih ⊢
    simp only [List.map_cons, List.cons.injEq]
    refine ⟨?_, ih⟩
    obtain ⟨hn, he⟩ := hhead
    rw [hn, extract_sheet_numEquiv _ _ _ he]

/-- C1 — No numeric leakage: a plain numeric cell is recorded in the
structural snapshot only through its `cell_types` classification
("numeric"); its magnitude is stored in none of `headers`, `row_labels`,
`text_values` or `formulas`; and the context string rendered by
`build_llm_context` is unchanged when any numeric magnitudes of the
uploaded workbook change (for any visibility declaration, including
none), so it contains no value of any cell classified numeric. -/
theorem no_numeric_leakage
    (name : String) (sh : XlsxSheet) (r c : Nat) (q : Int)
    (hr1 : 1 ≤ r) (hr2 : r ≤ sh.maxRow) (hc1 : 1 ≤ c) (hc2 : c ≤ sh.maxCol)
    (hraw : isFormulaRaw (sh.raw r c) = none)
    (hval : sh.val r c = .num q)
    (files : List (String × FileData)) (fid : String)
    (raws : List (String × RawBytes)) (cv : Option Visibility)
    (vis : Option Visibility) (wb1 wb2 : List (String × XlsxSheet))
    (hwb : wbNumEquiv wb1 wb2) :
    ((extract_sheet name sh).cell_types.lookup (cellAddr c r) = some "numeric" ∧
     (extract_sheet name sh).headers.lookup (cellAddr c r) = none ∧
     (extract_sheet name sh).row_labels.lookup (cellAddr c r) = none ∧
     (extract_sheet name sh).text_values.lookup (cellAddr c r) = none ∧
     (extract_sheet name sh).formulas.lookup (cellAddr c r) = none) ∧
    build_llm_context ⟨files, [(fid, extract_structure_from_excel wb1)], raws, cv⟩ vis =
      build_llm_context ⟨files, [(fid, extract_structure_from_excel wb2)], raws, cv⟩ vis := by
  refine ⟨no_numeric_in_structure name sh r c q hr1 hr2 hc1 hc2 hraw hval, ?_⟩
  rw [extract_structure_numEquiv wb1 wb2 hwb]

theorem no_numeric_leakage_witness :
    ((extract_sheet "S" wSheetA).cell_types.lookup (cellAddr 2 2) = some "numeric" ∧
     (extract_sheet "S" wSheetA).headers.lookup (cellAddr 2 2) = none ∧
     (extract_sheet "S" wSheetA).row_labels.lookup (cellAddr 2 2) = none ∧
     (extract_sheet "S" wSheetA).text_values.lookup (cellAddr 2 2) = none ∧
     (extract_sheet "S" wSheetA).formulas.lookup (cellAddr 2 2) = none) ∧
    build_llm_context ⟨[("f1", ⟨"book.xlsx", []⟩)],
        [("f1", extract_structure_from_excel [("S", wSheetA)])], [], none⟩ none =
      build_llm_context ⟨[("f1", ⟨"book.xlsx", []⟩)],
        [("f1", extract_structure_from_excel [("S", wSheetB)])], [], none⟩ none :=
  no_numeric_leakage "S" wSheetA 2 2 42 (by decide) (by decide) (by decide) (by decide)
    (by decide) (by decide)
    [("f1", ⟨"book.xlsx", []⟩)] "f1" [] none none
    [("S", wSheetA)] [("S", wSheetB)]
    (by
      refine List.Forall₂.cons ⟨rfl, rfl, rfl, ?_, ?_⟩ List.Forall₂.nil
      · intro r c
        by_cases h : r = 2 ∧ c = 2
        · obtain ⟨h1, h2⟩ := h
          subst h1
          subst h2
          rfl
        · show isFormulaRaw (wVal1 r c) = isFormulaRaw (wVal2 r c)
          unfold wVal2
          rw [if_neg h]
      · intro r c
        by_cases h : r = 2 ∧ c = 2
        · obtain ⟨h1, h2⟩ := h
          subst h1
          subst h2
          exact Or.inr ⟨42, 999, rfl, rfl⟩
        · refine Or.inl ?_
          show wVal1 r c = wVal2 r c
          unfold wVal2
          rw [if_neg h])

theorem degenerate_range_amended_witness :
    (execute_formula exampleCtx9
        ("SUM" ++ "(" ++ ("A" ++ natRepr 1 ++ ":" ++ "A" ++ natRepr 2) ++ ")")
        "f9" (some "S") = .val (.num 0)) ∧
    (execute_formula exampleCtx9
        ("COUNT" ++ "(" ++ ("A" ++ natRepr 1 ++ ":" ++ "A" ++ natRepr 2) ++ ")")
        "f9" (some "S") = .val (.num 0)) ∧
    (execute_formula exampleCtx9
        ("AVERAGE" ++ "(" ++ ("A" ++ natRepr 1 ++ ":" ++ "A" ++ natRepr 2) ++ ")")
        "f9" (some "S") = .val (.num 0)) ∧
    (execute_formula exampleCtx9
        ("MAX" ++ "(" ++ ("A" ++ natRepr 1 ++ ":" ++ "A" ++ natRepr 2) ++ ")")
        "f9" (some "S") = .val (.num 0)) ∧
    (execute_formula exampleCtx9
        ("MIN" ++ "(" ++ ("A" ++ natRepr 1 ++ ":" ++ "A" ++ natRepr 2) ++ ")")
        "f9" (some "S") = .val (.num 0)) :=
  degenerate_range_amended exampleCtx9 "f9" "S" "A" "A" ⟨[("S", exampleWs9)]⟩
    exampleWs9 1 2 rfl rfl (by decide) (by decide) (by decide) (by decide)
    (by decide) (by decide)

/-- C7 — Sandbox exception containment: when the loaded file exists, the
workbook step does not raise, and the interpreter raises while evaluating
the cleaned code (`pythonQueryBody` ends in `.error m`, e.g. `eval("1/0")`
raising ZeroDivisionError), `execute_python_query` returns the structured
error result `QueryResult.err m` — the exception never propagates past the
function boundary. -/
theorem sandbox_exception_containment {σ α : Type} (I : PyInterp σ α)
    (ctx : SpreadsheetContext) (code file_id : String) (fd : FileData)
    (wbo : Option Workbook) (m : String)
    (hfile : ctx.files.lookup file_id = some fd)
    (hwb : get_cached_workbook ctx file_id = .ok wbo)
    (hbody : pythonQueryBody I code = .error m) :
    execute_python_query I ctx code file_id = .err m := by
  unfold execute_python_query
  rw [hfile, hwb, hbody]

theorem sandbox_exception_containment_witness :
    execute_python_query divZeroInterp exampleCtx7 "1/0" "f7" =
      QueryResult.err "division by zero" :=
  sandbox_exception_containment divZeroInterp exampleCtx7 "1/0" "f7"
    ⟨"book.xlsx", []⟩ (some ⟨[("S", ⟨fun _ _ => .empty⟩)]⟩) "division by zero"
    rfl rfl rfl

/-! ### Ambient visibility state (spreadsheet.py:383-390, 682-687) -/

theorem get_compiled_visibility_none (fid : String) (fn sn : Option String) :
    get_compiled_visibility fid fn sn none = CompiledVisibility.empty := rfl

theorem is_cell_hidden_fast_empty (addr : String) :
    is_cell_hidden_fast addr CompiledVisibility.empty = false := by
  unfold is_cell_hidden_fast CompiledVisibility.empty
  cases hp : parseCellAddr (strUpper addr) with
  | none => simp [hp]
  | some pr =>
    obtain ⟨col, row⟩ := pr
    simp [hp]

theorem cell_value_empty_vis (ws : Worksheet) (addr col : String) (row : Nat)
    (hp : parseCellAddr (strUpper addr) = some (col, row)) :
    _get_cell_value_with_visibility ws addr CompiledVisibility.empty =
      .ok (ws.cellVal row (column_index_from_string col)) := by
  unfold _get_cell_value_with_visibility
  simp [hp, is_cell_hidden_fast_empty]

theorem range_values_empty_vis (ws : Worksheet) (rng : String) :
    _get_range_values_with_visibility ws rng CompiledVisibility.empty =
      _get_range_values ws rng := by
  unfold _get_range_values_with_visibility _get_range_values get_visible_range_indices
  cases hp : parseRangeRef (strUpper rng) with
  | none => simp [hp]
  | some t =>
    obtain ⟨cs, rs, ce, re⟩ := t
    simp [hp, CompiledVisibility.empty]

theorem build_sets_visibility (ctx : SpreadsheetContext) (v : Option Visibility) :
    (build_llm_context ctx v).2 = { ctx with current_visibility := v } := by
  unfold build_llm_context
  by_cases h : ctx.structures.isEmpty
  · simp [h]
  · simp [h]

/-- C10 — Ambient visibility state: `build_llm_context` overwrites
`current_visibility` as a side effect and that module-global is the only
visibility `execute_formula` consults (it takes no visibility parameter);
when `current_visibility` is `none` — no prior `build_llm_context` call, or
one with `visibility=None` — the compiled visibility is empty, no cell is
treated as hidden, single-cell reads return the real stored value, and
range reads coincide with the legacy unfiltered `_get_range_values`. -/
theorem ambient_visibility_state (ctx : SpreadsheetContext) (v : Option Visibility)
    (f file_id : String) (sheet_name : Option String) (fid : String)
    (fn sname : Option String) (ws : Worksheet) (addr rng col : String) (row : Nat)
    (hp : parseCellAddr (strUpper addr) = some (col, row)) :
    (build_llm_context ctx v).2 = { ctx with current_visibility := v } ∧
    execute_formula (build_llm_context ctx v).2 f file_id sheet_name =
      execute_formula { ctx with current_visibility := v } f file_id sheet_name ∧
    get_compiled_visibility fid fn sname none = CompiledVisibility.empty ∧
    is_cell_hidden_fast addr CompiledVisibility.empty = false ∧
    _get_cell_value_with_visibility ws addr CompiledVisibility.empty =
      .ok (ws.cellVal row (column_index_from_string col)) ∧
    _get_range_values_with_visibility ws rng CompiledVisibility.empty =
      _get_range_values ws rng :=
  ⟨build_sets_visibility ctx v,
   congrArg (fun c => execute_formula c f file_id sheet_name) (build_sets_visibility ctx v),
   get_compiled_visibility_none fid fn sname,
   is_cell_hidden_fast_empty addr,
   cell_value_empty_vis ws addr col row hp,
   range_values_empty_vis ws rng⟩

theorem ambient_visibility_state_witness :
    (build_llm_context ctx10 (some vis10)).2 =
      { ctx10 with current_visibility := some vis10 } ∧
    execute_formula (build_llm_context ctx10 (some vis10)).2 "A1" "f" (some "S") =
      execute_formula { ctx10 with current_visibility := some vis10 } "A1" "f" (some "S") ∧
    get_compiled_visibility "f" none (some "S") none = CompiledVisibility.empty ∧
    is_cell_hidden_fast "B2" CompiledVisibility.empty = false ∧
    _get_cell_value_with_visibility ws10 "B2" CompiledVisibility.empty =
      .ok (ws10.cellVal 2 (column_index_from_string "B")) ∧
    _get_range_values_with_visibility ws10 "A1:B2" CompiledVisibility.empty =
      _get_range_values ws10 "A1:B2" :=
  ambient_visibility_state ctx10 (some vis10) "A1" "f" (some "S") "f" none (some "S")
    ws10 "B2" "A1:B2" "B" 2 (by decide)

end ROAI
